import Mathlib

/-!
Verification of the blockchain-exporter polling and state-management
subsystem: a shallow embedding, in Lean 4, of the Python source under
src/blockchain_exporter, together with theorems settling the claims about
the duration grammar, the configuration loader, the adaptive log chunker,
the poll-loop backoff, the retry executor, the metrics label lifecycle,
one collection iteration, and the configuration reload.

Conventions used throughout the embedding:
* machine integers are Nat/Int (Python ints are unbounded, so no wrap);
* Python floats (timestamps, durations) are modelled as exact rationals;
* fallible code returns Except/Option;
* Python dicts and sets become functions into Option and lists;
* raised exceptions are values of an explicit PyExc type.
-/

namespace BlockchainExporter

/-! ## String helpers (Python `in`, truthiness) -/

/-- Does the list `hay` start with `needle`? (helper for substring search). -/
def listStartsWith : List Char → List Char → Bool
  | _, [] => true
  | [], _ :: _ => false
  | a :: as, b :: bs => a == b && listStartsWith as bs

/-- Does `needle` occur as a contiguous sublist of the second argument? -/
def listHasSub (needle : List Char) : List Char → Bool
  | [] => listStartsWith [] needle
  | c :: t => listStartsWith (c :: t) needle || listHasSub needle t

/-- Python's `needle in hay` on strings. -/
def strContainsSub (hay needle : String) : Bool :=
  listHasSub needle.toList hay.toList

/-- Python `str.lower()` (ASCII), stated directly over the character list
so concrete instances evaluate. -/
def strLower (s : String) : String :=
  String.mk (s.data.map Char.toLower)

/-- Python truthiness of an optional string (`None` and `""` are falsy). -/
def pyTruthy : Option String → Bool
  | none => false
  | some s => !(s == "")

/-- Python `a or b` for optional strings: first truthy value, if any. -/
def pyOrStr (a b : Option String) : Option String :=
  if pyTruthy a then a else b

/-! ## Duration grammar — src/blockchain_exporter/poller/intervals.py

`POLL_INTERVAL_PATTERN = re.compile(r"^\s*(\d+)\s*([smhSMH]?)\s*$")`;
`parse_duration_to_seconds` applies the pattern and multiplies the digit
group by the unit multiplier (s=1, m=60, h=3600; default unit "s").
-/

/-- Python regex `\s` on ASCII input: space, tab, newline, return, vtab, formfeed. -/
def isPySpace (c : Char) : Bool :=
  c == ' ' || c == '\t' || c == '\n' || c == '\r' || c == '\x0b' || c == '\x0c'

/-- Unit letters accepted by the pattern (`[smhSMH]`). -/
def isDurationUnitChar (c : Char) : Bool :=
  c == 's' || c == 'm' || c == 'h' || c == 'S' || c == 'M' || c == 'H'

/-- Matcher for `^\s*(\d+)\s*([smhSMH]?)\s*$`: returns the digit group and
the optional unit letter when the whole string matches. -/
def durationMatch (value : String) : Option (List Char × Option Char) :=
  let afterLead := value.toList.dropWhile isPySpace
  let digits := afterLead.takeWhile Char.isDigit
  let afterDigits := afterLead.drop digits.length
  if digits.isEmpty then none
  else
    let afterGap := afterDigits.dropWhile isPySpace
    match afterGap with
    | [] => some (digits, none)
    | u :: rest =>
      if isDurationUnitChar u then
        if (rest.dropWhile isPySpace).isEmpty then some (digits, some u) else none
      else none

/-- Numeric value of a digit group (`int(match.group(1))`). -/
def digitsToNat (ds : List Char) : Nat :=
  ds.foldl (fun acc c => acc * 10 + (c.toNat - '0'.toNat)) 0

/-- `unit_multipliers = {"s": 1, "m": 60, "h": 3600}` looked up on the
lowercased unit (default `"s"` when the group is empty). -/
def unitMultiplier (u : Option Char) : Option Nat :=
  let unit := (u.map Char.toLower).getD 's'
  if unit == 's' then some 1
  else if unit == 'm' then some 60
  else if unit == 'h' then some 3600
  else none

/-- `parse_duration_to_seconds`: pattern match, then amount × multiplier;
`none` when the pattern does not match (or, unreachably, on unknown unit). -/
def parseDurationToSeconds (value : String) : Option Nat :=
  match durationMatch value with
  | none => none
  | some (ds, u) =>
    match unitMultiplier u with
    | none => none
    | some m => some (digitsToNat ds * m)

/-! ## Configuration model — src/blockchain_exporter/config.py -/

structure AccountConfig where
  name : String
  address : String
  enabled : Bool := true
  deriving Repr, DecidableEq

structure ContractAccountConfig where
  name : String
  address : String
  enabled : Bool := true
  deriving Repr, DecidableEq

structure ContractConfig where
  name : String
  address : String
  decimals : Option Nat
  accounts : List ContractAccountConfig
  transferLookbackBlocks : Option Nat
  enabled : Bool := true
  deriving Repr, DecidableEq

structure BlockchainConfig where
  name : String
  rpcUrl : String
  pollInterval : Option String
  contracts : List ContractConfig
  accounts : List AccountConfig
  enabled : Bool := true
  deriving Repr, DecidableEq

/-- `blockchain_identity`: the stable `(name, rpc_url)` pair. -/
def blockchainIdentity (blockchain : BlockchainConfig) : String × String :=
  (blockchain.name, blockchain.rpcUrl)

/-- Validation failure raised by the loader (message and offending section). -/
structure ValErr where
  message : String
  configSection : String
  deriving Repr, DecidableEq

/-- The chain-list pass of `load_blockchain_configs` (config.py lines 87-120),
starting from already-parsed entries (TOML decoding and per-entry field
validation are upstream of this loop): disabled entries are skipped, and a
duplicate chain *name* — compared case-insensitively, regardless of RPC
URL — raises `ValidationError`. -/
def loadBlockchainConfigsFromEntries (entries : List BlockchainConfig) :
    Except ValErr (List BlockchainConfig) :=
  go entries 1 [] []
where
  go : List BlockchainConfig → Nat → List String → List BlockchainConfig →
      Except ValErr (List BlockchainConfig)
  | [], _, _, acc => Except.ok acc.reverse
  | config :: rest, index, seenNames, acc =>
    if !config.enabled then
      go rest (index + 1) seenNames acc
    else
      let normalizedName := strLower config.name
      if seenNames.contains normalizedName then
        Except.error
          { message := "Duplicate blockchain name '" ++ config.name ++ "' detected."
            configSection := "blockchains[" ++ toString index ++ "]" }
      else
        go rest (index + 1) (normalizedName :: seenNames) (config :: acc)

/-! ## Error taxonomy — src/blockchain_exporter/exceptions.py and rpc.py

Raised Python exceptions are modelled by `PyExc`.  The four `Rpc*Error`
classes become the four `rpc*` constructors; every other exception is an
`external` value carrying the fields the classifier inspects (type name,
message, whether it is an OSError/ConnectionError, whether it is a
`Web3RPCError` with its payload, and whether it is one of
ValueError/TypeError/AttributeError/KeyError).  `str(exc)` is modelled by
the message field.
-/

/-- Structured context attached to a wrapped RPC error. -/
structure RpcErrCtx where
  blockchain : Option String := none
  rpcUrl : Option String := none
  operation : Option String := none
  attempt : Option Nat := none
  maxAttempts : Option Nat := none
  deriving Repr, DecidableEq

/-- External exception as seen by the classifier. -/
structure ExternalExc where
  typeName : String
  message : String
  isOSError : Bool := false
  isWeb3RPC : Bool := false
  payloadCode : Option Int := none
  payloadMessage : Option String := none
  isValueLike : Bool := false
  deriving Repr, DecidableEq

inductive PyExc where
  | rpcTimeout (message : String) (ctx : RpcErrCtx)
  | rpcConnection (message : String) (ctx : RpcErrCtx)
  | rpcProtocol (message : String) (rpcErrorCode : Option Int)
      (rpcErrorMessage : Option String) (ctx : RpcErrCtx)
  | rpcGeneric (message : String) (ctx : RpcErrCtx)
  | external (e : ExternalExc)
  deriving Repr, DecidableEq

/-- Is the exception already one of the tagged RPC errors? -/
def PyExc.isRpcError : PyExc → Bool
  | .rpcTimeout .. | .rpcConnection .. | .rpcProtocol .. | .rpcGeneric .. => true
  | .external _ => false

/-- `str(exception)` as inspected by substring checks. -/
def PyExc.excStr : PyExc → String
  | .rpcTimeout m _ | .rpcConnection m _ | .rpcProtocol m _ _ _ | .rpcGeneric m _ => m
  | .external e => e.message

/-- OSError message keywords that classify as connection errors (rpc.py). -/
def osConnectionKeywords : List String :=
  ["connection refused", "network unreachable", "name resolution",
   "name or service not known", "connection aborted", "connection reset"]

/-- `_categorize_error` (rpc.py lines 62-130). -/
def categorizeError : PyExc → String
  | .rpcTimeout _ _ => "timeout"
  | .rpcConnection _ _ => "connection_error"
  | .rpcProtocol _ _ _ _ => "rpc_error"
  | .rpcGeneric m _ =>
    if strContainsSub (strLower m) "timeout" then "timeout"
    else if strContainsSub (strLower m) "connection" then "connection_error"
    else "rpc_error"
  | .external e =>
    let typeLower := strLower e.typeName
    let msgLower := strLower e.message
    if strContainsSub typeLower "timeout" || strContainsSub msgLower "timeout" then
      "timeout"
    else if strContainsSub typeLower "connection" || strContainsSub msgLower "connection" then
      "connection_error"
    else if e.isOSError && osConnectionKeywords.any (fun k => strContainsSub msgLower k) then
      "connection_error"
    else if strContainsSub typeLower "rpc" || strContainsSub msgLower "rpc" then
      "rpc_error"
    else if e.isWeb3RPC then
      "rpc_error"
    else if e.isValueLike then
      "value_error"
    else
      "unknown"

/-- `_wrap_rpc_exception` (rpc.py lines 133-218): reuse tagged errors as-is,
otherwise build the subclass matching the classified type, extracting the
JSON-RPC code/message from a `Web3RPCError` payload for protocol errors. -/
def wrapRpcException (exc : PyExc) (blockchain : BlockchainConfig)
    (operation description : String) (attempt maxAttempts : Nat) : PyExc :=
  if exc.isRpcError then exc
  else
    let errorType := categorizeError exc
    let errorMessage := "RPC operation '" ++ description ++ "' failed: " ++ exc.excStr
    let ctx : RpcErrCtx :=
      { blockchain := some blockchain.name
        rpcUrl := some blockchain.rpcUrl
        operation := some operation
        attempt := some attempt
        maxAttempts := some maxAttempts }
    if errorType == "timeout" then .rpcTimeout errorMessage ctx
    else if errorType == "connection_error" then .rpcConnection errorMessage ctx
    else if errorType == "rpc_error" then
      match exc with
      | .external e =>
        if e.isWeb3RPC then .rpcProtocol errorMessage e.payloadCode e.payloadMessage ctx
        else .rpcProtocol errorMessage none none ctx
      | _ => .rpcProtocol errorMessage none none ctx
    else .rpcGeneric errorMessage ctx

/-- `_is_response_too_big_error` (collectors.py lines 717-744). -/
def isResponseTooBigError (exception : PyExc) : Bool :=
  match exception with
  | .rpcProtocol message _ rpcErrorMessage _ =>
    let errorMessage := strLower message
    if strContainsSub errorMessage "too big" || strContainsSub errorMessage "exceeded max limit" then
      true
    else
      match rpcErrorMessage with
      | some rm =>
        strContainsSub (strLower rm) "too big" || strContainsSub (strLower rm) "exceeded max limit"
      | none => false
  | .external e =>
    if e.isWeb3RPC then
      match e.payloadMessage with
      | some m =>
        strContainsSub (strLower m) "too big" || strContainsSub (strLower m) "exceeded max limit"
      | none => false
    else false
  | _ => false

/-! ## Transfer-count collection and the adaptive chunker — collectors.py

`_collect_contract_transfer_count` is a stack-driven loop; it is embedded
with an explicit fuel argument (`none` = fuel exhausted), and the
termination theorem shows the fuel `chunkMeasure stack + 1` always
suffices.  `get_logs` is issued with `max_attempts = 1`, so a raised
oracle exception reaches the chunker wrapped by `_wrap_rpc_exception`
(the retry executor itself is embedded separately as
`executeWithRetries`).  The three chunk metrics plus the issued call are
recorded chronologically in a `ChunkEvent` trace.
-/

/-- Outcome model for one blockchain's RPC endpoint: results of the
retried RPC calls made during one collection iteration.  `getLogs` and
block/balance/code lookups return the final outcome of the call (the
per-attempt retry behaviour lives in `executeWithRetries`). -/
structure RpcOracle where
  isConnected : Bool
  chainId : Except PyExc Nat
  getBlock : String → Except PyExc (Nat × ℚ)     -- tag ↦ (number, timestamp)
  getBalance : String → Except PyExc Nat          -- address ↦ wei
  getCode : String → Except PyExc Nat             -- address ↦ bytecode length
  totalSupply : String → Except PyExc Nat         -- contract address ↦ raw supply
  balanceOf : String → String → Except PyExc Nat  -- contract, account ↦ raw balance
  decimalsOf : String → Except PyExc Nat          -- contract address ↦ decimals
  getLogs : String → Nat → Nat → Except PyExc Nat -- address, from, to ↦ log count
  toChecksum : String → String                    -- Web3.to_checksum_address
  now : ℚ                                         -- wall clock
  chunkCallDur : Nat → ℚ                          -- duration of the i-th get_logs chunk

def DEFAULT_TOKEN_DECIMALS : Nat := 0
def DEFAULT_TRANSFER_LOOKBACK_BLOCKS : Nat := 5000
def LOG_SPLIT_MIN_BLOCK_SPAN : Nat := 1
def LOG_MAX_CHUNK_SIZE : Nat := 2000
def LOG_MIN_CHUNK_SIZE : Nat := 100
def LOG_TARGET_RESPONSE_SIZE : Nat := 5000

structure TransferWindow where
  startBlock : Nat
  endBlock : Nat
  span : Nat
  deriving Repr, DecidableEq

/-- `_resolve_transfer_lookup_window`: window `[max(0, latest − span), latest]`
where `span` is the configured lookback, `or`-defaulted to 5000 (Python `or`
also replaces a zero value; the config layer enforces ≥ 1 anyway).  Nat
subtraction models `max(0, latest − span)`. -/
def resolveTransferLookupWindow (contract : ContractConfig)
    (latestBlockNumber : Nat) : TransferWindow :=
  let windowSpan :=
    match contract.transferLookbackBlocks with
    | some n => if n = 0 then DEFAULT_TRANSFER_LOOKBACK_BLOCKS else n
    | none => DEFAULT_TRANSFER_LOOKBACK_BLOCKS
  { startBlock := latestBlockNumber - windowSpan
    endBlock := latestBlockNumber
    span := windowSpan }

inductive ChunkEvent where
  | chunkCreated
  | called (fromBlock toBlock : Nat)
  | blocksObs (blockSpan : Nat)
  | durObs (seconds : ℚ)
  deriving Repr, DecidableEq

/-- The chunker's `get_logs` with `max_attempts = 1`: the single attempt's
exception is wrapped and re-raised by the retry executor. -/
def wrappedGetLogs (O : RpcOracle) (blockchain : BlockchainConfig)
    (contractAddress : String) (fromBlock toBlock : Nat) : Except PyExc Nat :=
  match O.getLogs contractAddress fromBlock toBlock with
  | .ok n => .ok n
  | .error e =>
    .error (wrapRpcException e blockchain "get_logs"
      ("eth_getLogs(" ++ contractAddress ++ ")") 1 1)

/-- Adaptive chunk-size update after a successful chunk (collectors.py
lines 577-623).  `int(x * 0.75)` and `int(x * 1.25)` on these magnitudes
are exactly `3x/4` and `5x/4` floored. -/
def adjustChunkSizeOnSuccess (currentChunkSize logsLen : Nat) : Nat :=
  if logsLen > LOG_TARGET_RESPONSE_SIZE then
    let newChunkSize := max (3 * currentChunkSize / 4) LOG_MIN_CHUNK_SIZE
    if newChunkSize < currentChunkSize then newChunkSize else currentChunkSize
  else if logsLen < LOG_TARGET_RESPONSE_SIZE / 4 && currentChunkSize < LOG_MAX_CHUNK_SIZE then
    let newChunkSize := min (5 * currentChunkSize / 4) LOG_MAX_CHUNK_SIZE
    if newChunkSize > currentChunkSize then newChunkSize else currentChunkSize
  else currentChunkSize

/-- Weight of a pending range: `2·span − 1` for a valid range, `1` for an
inverted one.  Every loop iteration either consumes a range (weight ≥ 1)
or replaces one of span `n ≥ 2` by two valid sub-ranges whose spans sum to
`n` (weights `(2a−1) + (2b−1) = 2n−2 < 2n−1`), so the total weight
strictly decreases and bounds the number of iterations. -/
def rangeWeight (r : Nat × Nat) : Nat :=
  if r.1 ≤ r.2 then 2 * (r.2 + 1 - r.1) - 1 else 1

/-- Total weight of the pending-range stack. -/
def chunkMeasure (stack : List (Nat × Nat)) : Nat :=
  (stack.map rangeWeight).sum

/-- The `while ranges:` loop of `_collect_contract_transfer_count`
(collectors.py lines 525-691), with explicit fuel.  The stack head is the
Python list's last element (the one `pop` returns); a split pushes the
remainder first so the lower half is processed next. -/
def chunkerGo (O : RpcOracle) (blockchain : BlockchainConfig)
    (contractAddress : String) :
    Nat → List (Nat × Nat) → Nat → Nat → Nat → Option (Option Nat × List ChunkEvent)
  | _, [], _, totalLogs, _ => some (some totalLogs, [])
  | 0, _ :: _, _, _, _ => none
  | fuel + 1, (rangeStart, rangeEnd) :: rest, currentChunkSize, totalLogs, callIdx =>
    if rangeStart > rangeEnd then
      chunkerGo O blockchain contractAddress fuel rest currentChunkSize totalLogs callIdx
    else
      let blockSpan := rangeEnd - rangeStart + 1
      if blockSpan > currentChunkSize then
        let chunkEnd := rangeStart + currentChunkSize - 1
        chunkerGo O blockchain contractAddress fuel
          ((rangeStart, chunkEnd) :: (chunkEnd + 1, rangeEnd) :: rest)
          currentChunkSize totalLogs callIdx
      else
        let stepEvents := fun tail =>
          ChunkEvent.chunkCreated :: ChunkEvent.called rangeStart rangeEnd ::
            ChunkEvent.blocksObs blockSpan ::
            ChunkEvent.durObs (O.chunkCallDur callIdx) :: tail
        match wrappedGetLogs O blockchain contractAddress rangeStart rangeEnd with
        | .ok logs =>
          (chunkerGo O blockchain contractAddress fuel rest
              (adjustChunkSizeOnSuccess currentChunkSize logs)
              (totalLogs + logs) (callIdx + 1)).map
            (fun r => (r.1, stepEvents r.2))
        | .error exc =>
          if isResponseTooBigError exc && blockSpan > LOG_SPLIT_MIN_BLOCK_SPAN then
            let newChunkSize := max (3 * currentChunkSize / 4) LOG_MIN_CHUNK_SIZE
            let pushed :=
              if blockSpan > newChunkSize then
                let chunkEnd := rangeStart + newChunkSize - 1
                (rangeStart, chunkEnd) :: (chunkEnd + 1, rangeEnd) :: rest
              else
                let midpoint := rangeStart + (rangeEnd - rangeStart) / 2
                (rangeStart, midpoint) :: (midpoint + 1, rangeEnd) :: rest
            (chunkerGo O blockchain contractAddress fuel pushed newChunkSize
                totalLogs (callIdx + 1)).map
              (fun r => (r.1, stepEvents r.2))
          else
            some (none, stepEvents [])

/-- `_collect_contract_transfer_count` for one contract and one window:
run the loop from the full range with chunk size 2000; `none` stands for
the Python `return None` ("unknown").  The fuel `chunkMeasure + 1` is
sufficient (see the termination theorem), so the fuel-exhausted default
is unreachable. -/
def collectContractTransferCount (O : RpcOracle) (blockchain : BlockchainConfig)
    (contractAddress : String) (window : TransferWindow) :
    Option Nat × List ChunkEvent :=
  let initialStack := [(window.startBlock, window.endBlock)]
  match chunkerGo O blockchain contractAddress (chunkMeasure initialStack + 1)
      initialStack LOG_MAX_CHUNK_SIZE 0 0 with
  | some r => r
  | none => (none, [])

/-! ## Metrics registry and process-wide state — src/blockchain_exporter/metrics.py

Gauges are the only series the cleanup protocol removes; the registry is
a partial map from (gauge, label tuple) to the last written value.
Counter increments and histogram observations are recorded in operation
traces only (the source never removes them — see the comment in
`remove_chain_metrics_for_label`).  The module-level dicts
`CHAIN_LABEL_CACHE`, `CHAIN_RESOLVED_IDS`, `CONFIGURED_BLOCKCHAINS`,
`CHAIN_HEALTH_STATUS` and `CHAIN_LAST_SUCCESS` become the fields of
`MetricsState`.
-/

inductive GaugeId where
  | headBlockNumber | finalizedBlockNumber | headBlockTimestamp | timeSinceLastBlock
  | pollSuccess | pollTimestamp | configuredAccountsCount | configuredContractsCount
  | accountBalanceEth | accountBalanceWei | accountTokenBalance | accountTokenBalanceRaw
  | contractBalanceEth | contractBalanceWei | contractTokenSupply | contractTransferCount
  | exporterUp | configuredBlockchainsGauge | pollerThreadCount | consecutiveFailuresGauge
  deriving Repr, DecidableEq

inductive HistogramId where
  | rpcCallDuration | pollDuration | backoffDuration | logBlocksPerChunk | logChunkDuration
  deriving Repr, DecidableEq

inductive CounterId where
  | rpcErrorTotal | logChunksCreated
  deriving Repr, DecidableEq

/-- One operation against the metrics library, in program order. -/
inductive MetricOp where
  | setGauge (g : GaugeId) (labels : List String) (value : ℚ)
  | removeGauge (g : GaugeId) (labels : List String)
  | observe (h : HistogramId) (labels : List String) (value : ℚ)
  | incCounter (c : CounterId) (labels : List String)
  deriving Repr, DecidableEq

/-- `ChainMetricLabelState`: the label tuples written during one iteration
(Python sets of tuples; modelled as duplicate-free lists of label lists). -/
structure ChainMetricLabelState where
  chainIdLabel : String
  accountBalanceLabels : List (List String) := []
  contractBalanceLabels : List (List String) := []
  contractTransferLabels : List (List String) := []
  accountTokenLabels : List (List String) := []
  deriving Repr, DecidableEq

/-- Python `set.add`. -/
def addLabel (l : List String) (ls : List (List String)) : List (List String) :=
  if ls.contains l then ls else l :: ls

/-- Python `set.discard`. -/
def discardLabel (l : List String) (ls : List (List String)) : List (List String) :=
  ls.filter (fun x => x ≠ l)

/-- The registry plus the five module-level maps of metrics.py. -/
structure MetricsState where
  registry : GaugeId → List String → Option ℚ
  labelCache : String × String → Option ChainMetricLabelState
  resolvedIds : String × String → Option String
  configured : List (String × String)
  healthStatus : String × String → Option Bool
  lastSuccess : String × String → Option ℚ

/-- `gauge.labels(*labels).set(value)`. -/
def MetricsState.set (s : MetricsState) (g : GaugeId) (labels : List String)
    (value : ℚ) : MetricsState :=
  { s with registry := fun g' l' =>
      if g' = g ∧ l' = labels then some value else s.registry g' l' }

/-- `_safe_remove_metric`: remove the series, tolerating absence. -/
def MetricsState.srem (s : MetricsState) (g : GaugeId) (labels : List String) :
    MetricsState :=
  { s with registry := fun g' l' =>
      if g' = g ∧ l' = labels then none else s.registry g' l' }

/-- `dict.pop(key, None)` on a map field. -/
def popKey {β : Type} [DecidableEq β] {γ : Type} (m : β → Option γ) (k : β) :
    β → Option γ :=
  fun k' => if k' = k then none else m k'

/-- `dict[key] = value` on a map field. -/
def putKey {β : Type} [DecidableEq β] {γ : Type} (m : β → Option γ) (k : β)
    (v : γ) : β → Option γ :=
  fun k' => if k' = k then some v else m k'

/-- Safe-remove a batch of series, collecting the trace. -/
def sremMany (s : MetricsState) (pairs : List (GaugeId × List String)) :
    MetricsState × List MetricOp :=
  (pairs.foldl (fun acc p => acc.srem p.1 p.2) s,
   pairs.map (fun p => MetricOp.removeGauge p.1 p.2))

/-- The eight chain-level gauges removed by `remove_chain_metrics_for_label`,
in source order. -/
def chainLevelGauges : List GaugeId :=
  [.pollSuccess, .pollTimestamp, .headBlockNumber, .finalizedBlockNumber,
   .headBlockTimestamp, .timeSinceLastBlock, .configuredAccountsCount,
   .configuredContractsCount]

/-- `remove_chain_metrics_for_label` (metrics.py lines 402-422): safe-remove
every chain-level gauge for `(name, chain_id_label)` and pop the health and
last-success entries.  Histograms are deliberately left in place. -/
def removeChainMetricsForLabel (blockchain : BlockchainConfig)
    (chainIdLabel : String) (s : MetricsState) : MetricsState × List MetricOp :=
  let labelTuple := [blockchain.name, chainIdLabel]
  let (s1, trace) := sremMany s (chainLevelGauges.map (fun g => (g, labelTuple)))
  ({ s1 with
      healthStatus := popKey s1.healthStatus (blockchain.name, chainIdLabel)
      lastSuccess := popKey s1.lastSuccess (blockchain.name, chainIdLabel) },
   trace)

/-- The per-series removals of `clear_cached_metrics` for one cached state:
account balances (eth, wei), contract balances (eth, wei, supply), contract
transfer counts, and account token balances (normalised, raw). -/
def cachedSeriesRemovals (st : ChainMetricLabelState) : List (GaugeId × List String) :=
  st.accountBalanceLabels.flatMap
      (fun l => [(GaugeId.accountBalanceEth, l), (GaugeId.accountBalanceWei, l)]) ++
    st.contractBalanceLabels.flatMap
      (fun l => [(GaugeId.contractBalanceEth, l), (GaugeId.contractBalanceWei, l),
                 (GaugeId.contractTokenSupply, l)]) ++
    st.contractTransferLabels.map (fun l => (GaugeId.contractTransferCount, l)) ++
    st.accountTokenLabels.flatMap
      (fun l => [(GaugeId.accountTokenBalance, l), (GaugeId.accountTokenBalanceRaw, l)])

/-- `clear_cached_metrics` (metrics.py lines 364-392): pop the chain's label
cache entry; when present, remove the chain-level gauges for its label, pop
health/last-success, and safe-remove every cached series.  Returns whether
anything was cleared. -/
def clearCachedMetrics (blockchain : BlockchainConfig) (s : MetricsState) :
    MetricsState × List MetricOp × Bool :=
  match s.labelCache (blockchainIdentity blockchain) with
  | none => (s, [], false)
  | some st =>
    let s0 := { s with labelCache := popKey s.labelCache (blockchainIdentity blockchain) }
    let (s1, t1) := removeChainMetricsForLabel blockchain st.chainIdLabel s0
    let s2 := { s1 with
        healthStatus := popKey s1.healthStatus (blockchain.name, st.chainIdLabel)
        lastSuccess := popKey s1.lastSuccess (blockchain.name, st.chainIdLabel) }
    let (s3, t3) := sremMany s2 (cachedSeriesRemovals st)
    (s3, t1 ++ t3, true)

/-- `get_cached_chain_id_label`. -/
def getCachedChainIdLabel (blockchain : BlockchainConfig) (s : MetricsState) :
    Option String :=
  s.resolvedIds (blockchainIdentity blockchain)

/-- `chain_id_label or get_cached_chain_id_label(blockchain) or "unknown"`
(Python `or`: `None` and `""` fall through). -/
def resolveLabelOrUnknown (blockchain : BlockchainConfig)
    (chainIdLabel : Option String) (s : MetricsState) : String :=
  match pyOrStr chainIdLabel (pyOrStr (getCachedChainIdLabel blockchain s) (some "unknown")) with
  | some l => l
  | none => "unknown"

/-- `reset_chain_metrics` (metrics.py lines 425-448): zero the six
chain-level informational gauges for the resolved label. -/
def resetChainMetrics (blockchain : BlockchainConfig)
    (chainIdLabel : Option String) (s : MetricsState) :
    MetricsState × List MetricOp :=
  let resolvedLabel := resolveLabelOrUnknown blockchain chainIdLabel s
  let labels := [blockchain.name, resolvedLabel]
  let gs : List GaugeId :=
    [.headBlockNumber, .finalizedBlockNumber, .headBlockTimestamp,
     .timeSinceLastBlock, .configuredAccountsCount, .configuredContractsCount]
  (gs.foldl (fun acc g => acc.set g labels 0) s,
   gs.map (fun g => MetricOp.setGauge g labels 0))

/-- `record_poll_success` (metrics.py lines 451-474). -/
def recordPollSuccess (blockchain : BlockchainConfig) (chainIdLabel : String)
    (now : ℚ) (s : MetricsState) : MetricsState × List MetricOp :=
  let labels := [blockchain.name, chainIdLabel]
  let s1 := (s.set .pollSuccess labels 1).set .pollTimestamp labels now
  ({ s1 with
      healthStatus := putKey s1.healthStatus (blockchain.name, chainIdLabel) true
      lastSuccess := putKey s1.lastSuccess (blockchain.name, chainIdLabel) now },
   [.setGauge .pollSuccess labels 1, .setGauge .pollTimestamp labels now])

/-- `record_poll_failure` (metrics.py lines 477-500): zero `poll_success`
and `poll_timestamp`, reset the chain gauges, clear the cached series, and
mark the chain unhealthy. -/
def recordPollFailure (blockchain : BlockchainConfig)
    (chainIdLabel : Option String) (s : MetricsState) :
    MetricsState × List MetricOp :=
  let resolvedLabel := resolveLabelOrUnknown blockchain chainIdLabel s
  let labels := [blockchain.name, resolvedLabel]
  let s1 := (s.set .pollSuccess labels 0).set .pollTimestamp labels 0
  let t1 : List MetricOp := [.setGauge .pollSuccess labels 0, .setGauge .pollTimestamp labels 0]
  let (s2, t2) := resetChainMetrics blockchain (some resolvedLabel) s1
  let (s3, t3, _) := clearCachedMetrics blockchain s2
  ({ s3 with healthStatus := putKey s3.healthStatus (blockchain.name, resolvedLabel) false },
   t1 ++ t2 ++ t3)

/-- `handle_chain_id_update` (metrics.py lines 503-521): no-op when the
previously resolved label equals the new one; otherwise clear the cached
series (falling back to `remove_chain_metrics_for_label` for the previous
label when nothing was cached), then record the new label. -/
def handleChainIdUpdate (blockchain : BlockchainConfig) (newLabel : String)
    (s : MetricsState) : MetricsState × List MetricOp :=
  let identity := blockchainIdentity blockchain
  let previous := s.resolvedIds identity
  if previous = some newLabel then (s, [])
  else
    let (s1, t1) :=
      if pyTruthy previous then
        let (s', t', cleared) := clearCachedMetrics blockchain s
        if cleared then (s', t')
        else
          let prev := previous.getD ""
          let (s'', t'') := removeChainMetricsForLabel blockchain prev s'
          ({ s'' with healthStatus := popKey s''.healthStatus (blockchain.name, prev) }, t'')
      else (s, [])
    ({ s1 with resolvedIds := putKey s1.resolvedIds identity newLabel }, t1)

/-- `update_chain_label_cache`. -/
def updateChainLabelCache (blockchain : BlockchainConfig)
    (st : ChainMetricLabelState) (s : MetricsState) : MetricsState :=
  { s with labelCache := putKey s.labelCache (blockchainIdentity blockchain) st }

/-- `set_configured_blockchains` (metrics.py lines 332-342): replace the
configured-identity set and publish its size. -/
def setConfiguredBlockchains (blockchains : List BlockchainConfig)
    (s : MetricsState) : MetricsState × List MetricOp :=
  let identities := (blockchains.map blockchainIdentity).eraseDups
  let count : ℚ := identities.length
  ({ (s.set .configuredBlockchainsGauge [] count) with configured := identities },
   [.setGauge .configuredBlockchainsGauge [] count])

/-! ## Retry executor — `execute_with_retries` (rpc.py lines 351-493)

The loop over attempts becomes structural recursion on the number of
remaining attempts.  An `AttemptOracle` gives each attempt's outcome and
its wall-clock duration; the clock accumulates attempt durations plus the
inter-attempt backoff, so the duration observed on success is the wall
time from the first attempt (backoff included), exactly as the source's
`time.perf_counter() - start_time`.
-/

def RPC_MAX_RETRIES : Nat := 3
def RPC_INITIAL_BACKOFF_SECONDS : ℚ := 1 / 2
def RPC_MAX_BACKOFF_SECONDS : ℚ := 5

/-- `min(0.5 × 2^(attempt−1), 5.0)`, computed after a failed attempt. -/
def retryBackoffSeconds (attempt : Nat) : ℚ :=
  min (RPC_INITIAL_BACKOFF_SECONDS * 2 ^ (attempt - 1)) RPC_MAX_BACKOFF_SECONDS

/-- One metric outcome recorded by the retry executor. -/
inductive RpcEvent where
  | errorInc (operation errorType : String)
  | durationObs (operation : String) (seconds : ℚ)
  deriving Repr, DecidableEq

/-- Per-attempt outcomes and durations of one RPC call. -/
structure AttemptOracle (α : Type) where
  run : Nat → Except PyExc α
  dur : Nat → ℚ

/-- The `for attempt in range(1, attempt_limit + 1)` loop.  `remaining`
counts the attempts left including the current one; `clock` is the elapsed
wall time since the call started; `last` carries `last_exception`
(already wrapped).  Returns the call result, the recorded metric events in
order, and the final clock. -/
def ewrGo {α : Type} (O : AttemptOracle α) (blockchain : BlockchainConfig)
    (opType description : String) (attemptLimit : Nat) :
    Nat → Nat → ℚ → Option PyExc → Except PyExc α × List RpcEvent × ℚ
  | 0, _, clock, last =>
    match last with
    | some e => (.error e, [], clock)
    | none =>
      (.error (.external
        { typeName := "RuntimeError"
          message := "RPC operation '" ++ description ++ "' failed without raising an exception." }),
       [], clock)
  | remaining + 1, attempt, clock, _ =>
    match O.run attempt with
    | .ok v =>
      let clockAtSuccess := clock + O.dur attempt
      (.ok v, [.durationObs opType clockAtSuccess], clockAtSuccess)
    | .error exc =>
      let wrapped :=
        if exc.isRpcError then exc
        else wrapRpcException exc blockchain opType description attempt attemptLimit
      let errorType := categorizeError exc
      let clockAfter :=
        clock + O.dur attempt + (if remaining > 0 then retryBackoffSeconds attempt else 0)
      let next := ewrGo O blockchain opType description attemptLimit
        remaining (attempt + 1) clockAfter (some wrapped)
      (next.1, .errorInc opType errorType :: next.2.1, next.2.2)

/-- `execute_with_retries`: attempt limit defaults to `RPC_MAX_RETRIES`. -/
def executeWithRetries {α : Type} (O : AttemptOracle α)
    (blockchain : BlockchainConfig) (opType description : String)
    (maxAttempts : Option Nat) : Except PyExc α × List RpcEvent × ℚ :=
  let attemptLimit := maxAttempts.getD RPC_MAX_RETRIES
  ewrGo O blockchain opType description attemptLimit attemptLimit 1 0 none

/-- Index of the first successful attempt in `attempt, …, attempt + remaining − 1`. -/
def firstOkFrom {α : Type} (O : AttemptOracle α) : Nat → Nat → Option Nat
  | _, 0 => none
  | attempt, remaining + 1 =>
    if (O.run attempt).isOk then some attempt
    else firstOkFrom O (attempt + 1) remaining

/-- Index (1-based) of the first successful attempt within the limit. -/
def firstOkWithin {α : Type} (O : AttemptOracle α) (n : Nat) : Option Nat :=
  firstOkFrom O 1 n

/-- Classified error type of attempt `i` (meaningful when it failed). -/
def attemptErrType {α : Type} (O : AttemptOracle α) (i : Nat) : String :=
  match O.run i with
  | .error e => categorizeError e
  | .ok _ => "ok"

/-- The error-counter increments expected for failed attempts
`attempt, …, attempt + count − 1`. -/
def expectedErrEvents {α : Type} (O : AttemptOracle α) (opType : String)
    (attempt count : Nat) : List RpcEvent :=
  (List.range' attempt count).map (fun i => RpcEvent.errorInc opType (attemptErrType O i))

/-- Wall time from the start of attempt `attempt` through the end of
attempt `k`, including the backoff after each failed attempt before `k`. -/
def elapsedBetween {α : Type} (O : AttemptOracle α) (attempt k : Nat) : ℚ :=
  ((List.range' attempt (k + 1 - attempt)).map O.dur).sum +
    ((List.range' attempt (k - attempt)).map retryBackoffSeconds).sum

/-- The exception re-raised when every attempt fails: attempt `n`'s
exception, wrapped unless already tagged. -/
def lastWrappedError {α : Type} (O : AttemptOracle α)
    (blockchain : BlockchainConfig) (opType description : String)
    (n attemptLimit : Nat) : PyExc :=
  match O.run n with
  | .error e =>
    if e.isRpcError then e
    else wrapRpcException e blockchain opType description n attemptLimit
  | .ok _ => .external { typeName := "RuntimeError", message := "unreachable" }

/-- Is the event an error-counter increment? -/
def RpcEvent.isErrorInc : RpcEvent → Bool
  | .errorInc _ _ => true
  | .durationObs _ _ => false

/-- Is the event a duration observation? -/
def RpcEvent.isDurationObs : RpcEvent → Bool
  | .errorInc _ _ => false
  | .durationObs _ _ => true

/-! ## Poll-loop failure backoff — poller/control.py lines 120-173

After each iteration the loop updates `consecutive_failures` (reset on a
successful collection, incremented otherwise), then sleeps: on failure the
target is `min(interval × 2^(n−1), MAX_FAILURE_BACKOFF_SECONDS)`,
otherwise the configured interval, in both cases less the elapsed
iteration time, floored at zero.
-/

/-- `MAX_FAILURE_BACKOFF_SECONDS` (settings.py default 900). -/
def MAX_FAILURE_BACKOFF_SECONDS : Nat := 900

/-- The failure branch's sleep target for `consecutive_failures = n > 0`. -/
def failureBackoffTarget (intervalSeconds n maxBackoff : Nat) : Nat :=
  min (intervalSeconds * 2 ^ (n - 1)) maxBackoff

/-- `consecutive_failures` after an iteration (control.py lines 108-124):
reset to 0 when the collection succeeded, incremented otherwise. -/
def nextConsecutiveFailures (success : Bool) (n : Nat) : Nat :=
  if success then 0 else n + 1

/-- The sleep target of the iteration that left `consecutive_failures = n`. -/
def iterationSleepTarget (intervalSeconds n maxBackoff : Nat) : Nat :=
  if n > 0 then failureBackoffTarget intervalSeconds n maxBackoff else intervalSeconds

/-- The actual sleep: `max(target − elapsed, 0)` in both branches. -/
def iterationSleepSeconds (intervalSeconds n maxBackoff : Nat) (elapsed : ℚ) : ℚ :=
  if n > 0 then
    max ((failureBackoffTarget intervalSeconds n maxBackoff : ℚ) - elapsed) 0
  else
    max ((intervalSeconds : ℚ) - elapsed) 0

/-- Sleep targets over a run of iteration outcomes (`true` = collection
succeeded), starting from `consecutive_failures = 0`. -/
def pollSleepTargets (intervalSeconds maxBackoff : Nat) :
    Nat → List Bool → List Nat
  | _, [] => []
  | n, outcome :: rest =>
    let n' := nextConsecutiveFailures outcome n
    iterationSleepTarget intervalSeconds n' maxBackoff ::
      pollSleepTargets intervalSeconds maxBackoff n' rest

/-! ## One collection iteration — poller/collect.py and collectors.py

`collect_chain_metrics_sync` is embedded as a function of the chain
configuration, an `RpcOracle` (the final outcomes of the retried RPC
calls of this iteration) and the current `MetricsState`.  It is invoked
from the poll loop with an RPC client already in hand, so the
client-creation branch of the source cannot fail here.  Alongside the new
state it returns the chronological trace of metric operations, which is
what "a metric is written" quantifies over.
-/

/-- `AccountLabels` (models.py). -/
structure AccountLabels where
  blockchain : String
  chainId : String
  accountName : String
  accountAddress : String
  deriving Repr, DecidableEq

def AccountLabels.asTuple (l : AccountLabels) : List String :=
  [l.blockchain, l.chainId, l.accountName, l.accountAddress]

def AccountLabels.withContractFlag (l : AccountLabels) (isContract : Bool) :
    List String :=
  l.asTuple ++ [if isContract then "1" else "0"]

/-- Threaded state of one collection iteration: the metrics state, the
trace of metric operations so far, and the iteration's label bookkeeping. -/
structure CollectCtx where
  s : MetricsState
  trace : List MetricOp
  chainState : ChainMetricLabelState

/-- Write a gauge and log the operation. -/
def CollectCtx.setG (c : CollectCtx) (g : GaugeId) (labels : List String)
    (v : ℚ) : CollectCtx :=
  { c with s := c.s.set g labels v, trace := c.trace ++ [.setGauge g labels v] }

/-- Safe-remove a gauge series and log the operation. -/
def CollectCtx.sremG (c : CollectCtx) (g : GaugeId) (labels : List String) :
    CollectCtx :=
  { c with s := c.s.srem g labels, trace := c.trace ++ [.removeGauge g labels] }

/-- Log counter/histogram operations (they live only in the trace). -/
def CollectCtx.log (c : CollectCtx) (ops : List MetricOp) : CollectCtx :=
  { c with trace := c.trace ++ ops }

/-- `chain_state.account_balance_labels.add(...)`. -/
def CollectCtx.addAccountBalanceLabel (c : CollectCtx) (l : List String) : CollectCtx :=
  { c with chainState := { c.chainState with accountBalanceLabels := addLabel l c.chainState.accountBalanceLabels } }

/-- `chain_state.contract_balance_labels.add(...)`. -/
def CollectCtx.addContractBalanceLabel (c : CollectCtx) (l : List String) : CollectCtx :=
  { c with chainState := { c.chainState with contractBalanceLabels := addLabel l c.chainState.contractBalanceLabels } }

/-- `chain_state.contract_transfer_labels.add(...)`. -/
def CollectCtx.addTransferLabel (c : CollectCtx) (l : List String) : CollectCtx :=
  { c with chainState := { c.chainState with contractTransferLabels := addLabel l c.chainState.contractTransferLabels } }

/-- `chain_state.account_token_labels.add(...)`. -/
def CollectCtx.addTokenLabel (c : CollectCtx) (l : List String) : CollectCtx :=
  { c with chainState := { c.chainState with accountTokenLabels := addLabel l c.chainState.accountTokenLabels } }

/-- `chain_state.account_token_labels.discard(...)`. -/
def CollectCtx.discardTokenLabel (c : CollectCtx) (l : List String) : CollectCtx :=
  { c with chainState := { c.chainState with accountTokenLabels := discardLabel l c.chainState.accountTokenLabels } }

/-- Python `set.add` for the processed-accounts string set. -/
def addStr (x : String) (xs : List String) : List String :=
  if xs.contains x then xs else x :: xs

/-- `_contract_decimals_label`: override, else configured, else default 0. -/
def contractDecimalsLabel (contract : ContractConfig)
    (decimalsOverride : Option Nat) : String :=
  match decimalsOverride with
  | some d => toString d
  | none =>
    match contract.decimals with
    | some d => toString d
    | none => toString DEFAULT_TOKEN_DECIMALS

/-- `clear_token_metrics_for_account` (collectors.py lines 248-280): for
every configured contract, safe-remove the token-balance pair under the
given contract flag and discard the tuple from the iteration's cache. -/
def clearTokenMetricsForAccount (blockchain : BlockchainConfig)
    (chainIdLabel : String) (accountLabels : AccountLabels)
    (isContract : Bool) (c : CollectCtx) : CollectCtx :=
  let contractFlag := if isContract then "1" else "0"
  blockchain.contracts.foldl
    (fun acc contract =>
      let tokenLabels :=
        [blockchain.name, chainIdLabel, contract.name, contract.address,
         contractDecimalsLabel contract none,
         accountLabels.accountName, accountLabels.accountAddress, contractFlag]
      let acc1 := (acc.sremG .accountTokenBalance tokenLabels).sremG
        .accountTokenBalanceRaw tokenLabels
      acc1.discardTokenLabel tokenLabels)
    c

/-- `clear_eth_metrics_for_account` (collectors.py lines 283-298): remove
the eth/wei balance pair under both contract flags. -/
def clearEthMetricsForAccount (accountLabels : AccountLabels)
    (c : CollectCtx) : CollectCtx :=
  ["0", "1"].foldl
    (fun acc flag =>
      let labelTuple := accountLabels.asTuple ++ [flag]
      (acc.sremG .accountBalanceEth labelTuple).sremG .accountBalanceWei labelTuple)
    c

/-- `_record_contract_account_token_balance_zero` (collectors.py 425-448). -/
def recordContractAccountTokenBalanceZero (blockchain : BlockchainConfig)
    (chainIdLabel : String) (contract : ContractConfig)
    (accountLabels : AccountLabels) (isContract : Bool)
    (decimalsLabel : String) (c : CollectCtx) : CollectCtx :=
  let tokenLabels :=
    [blockchain.name, chainIdLabel, contract.name, contract.address,
     decimalsLabel, accountLabels.accountName, accountLabels.accountAddress,
     if isContract then "1" else "0"]
  let c1 := c.addTokenLabel tokenLabels
  (c1.setG .accountTokenBalance tokenLabels 0).setG
    .accountTokenBalanceRaw tokenLabels 0

/-- `_record_contract_account_token_balance` (collectors.py lines 301-422).
A `balanceOf` failure reaches the outer handler before the local
`decimals` is bound, so the zero-write falls back to the default decimals
label; on success `decimals` comes from the config or a single-attempt
`decimals()` call defaulting to 0. -/
def recordContractAccountTokenBalance (O : RpcOracle)
    (blockchain : BlockchainConfig) (chainIdLabel : String)
    (contract : ContractConfig) (accountChecksum : String)
    (accountLabels : AccountLabels) (isContract : Bool)
    (c : CollectCtx) : CollectCtx :=
  let checksumContract := O.toChecksum contract.address
  match O.balanceOf checksumContract accountChecksum with
  | .error _ =>
    recordContractAccountTokenBalanceZero blockchain chainIdLabel contract
      accountLabels isContract
      (contractDecimalsLabel contract (some DEFAULT_TOKEN_DECIMALS)) c
  | .ok balanceRaw =>
    let decimals :=
      match contract.decimals with
      | some d => d
      | none =>
        match O.decimalsOf checksumContract with
        | .ok d => d
        | .error _ => DEFAULT_TOKEN_DECIMALS
    let decimalsLabel := contractDecimalsLabel contract (some decimals)
    let normalizedBalance : ℚ := (balanceRaw : ℚ) / 10 ^ decimals
    let tokenLabels :=
      [blockchain.name, chainIdLabel, contract.name, contract.address,
       decimalsLabel, accountLabels.accountName, accountLabels.accountAddress,
       if isContract then "1" else "0"]
    let c1 := c.addTokenLabel tokenLabels
    (c1.setG .accountTokenBalance tokenLabels normalizedBalance).setG
      .accountTokenBalanceRaw tokenLabels (balanceRaw : ℚ)

/-- `_collect_contract_total_supply` (collectors.py lines 451-501): a
single-attempt `totalSupply()` call, any failure defaulting to 0. -/
def collectContractTotalSupply (O : RpcOracle) (checksumAddress : String) : ℚ :=
  match O.totalSupply checksumAddress with
  | .ok supplyRaw => (supplyRaw : ℚ)
  | .error _ => 0

/-- Metric operations behind `record_log_chunk_created/_blocks/_duration`
for the chunk events of one transfer-count run (the contract address label
is lowercased by those helpers). -/
def chunkEventToOps (blockchain : BlockchainConfig) (chainIdLabel : String)
    (checksumAddress : String) : ChunkEvent → List MetricOp
  | .chunkCreated =>
    [.incCounter .logChunksCreated
      [blockchain.name, chainIdLabel, strLower checksumAddress]]
  | .called _ _ => []
  | .blocksObs n =>
    [.observe .logBlocksPerChunk
      [blockchain.name, chainIdLabel, strLower checksumAddress] (n : ℚ)]
  | .durObs q =>
    [.observe .logChunkDuration
      [blockchain.name, chainIdLabel, strLower checksumAddress] q]

/-- `record_contract_balances` (collectors.py lines 64-166): per enabled
contract, record the labels, then balance + total supply + windowed
transfer count; an RPC failure of the balance call zeroes all four
gauges for this contract and moves on. -/
def recordContractBalances (O : RpcOracle) (blockchain : BlockchainConfig)
    (chainIdLabel : String) (latestBlockNumber : Nat) (c : CollectCtx) :
    CollectCtx :=
  blockchain.contracts.foldl
    (fun acc contract =>
      if !contract.enabled then acc
      else
        let contractLabels :=
          [blockchain.name, chainIdLabel, contract.name, contract.address]
        let acc0 := acc.addContractBalanceLabel contractLabels
        let window := resolveTransferLookupWindow contract latestBlockNumber
        let transferLabels := contractLabels ++ [toString window.span]
        let acc1 := acc0.addTransferLabel transferLabels
        let checksumAddress := O.toChecksum contract.address
        match O.getBalance checksumAddress with
        | .error _ =>
          (((acc1.setG .contractBalanceEth contractLabels 0).setG
              .contractBalanceWei contractLabels 0).setG
              .contractTokenSupply contractLabels 0).setG
            .contractTransferCount transferLabels 0
        | .ok balanceWei =>
          let totalSupply := collectContractTotalSupply O checksumAddress
          let transferRun :=
            collectContractTransferCount O blockchain checksumAddress window
          let acc2 := acc1.log
            (transferRun.2.flatMap (chunkEventToOps blockchain chainIdLabel checksumAddress))
          let acc3 := ((acc2.setG .contractBalanceEth contractLabels
                ((balanceWei : ℚ) / 10 ^ 18)).setG
              .contractBalanceWei contractLabels (balanceWei : ℚ)).setG
            .contractTokenSupply contractLabels totalSupply
          match transferRun.1 with
          | some transferCount =>
            acc3.setG .contractTransferCount transferLabels (transferCount : ℚ)
          | none => acc3.setG .contractTransferCount transferLabels 0)
    c

/-- The top-level account loop of `collect_chain_metrics_sync`
(poller/collect.py lines 96-163): record eth/wei balances per configured
account (zeroes under flag "0" on any failure) and refresh the token
series for the account. -/
def recordTopLevelAccounts (O : RpcOracle) (blockchain : BlockchainConfig)
    (chainIdLabel : String) (c : CollectCtx) : CollectCtx × List String :=
  blockchain.accounts.foldl
    (fun (st : CollectCtx × List String) account =>
      let acc := st.1
      let accountLabels : AccountLabels :=
        ⟨blockchain.name, chainIdLabel, account.name, account.address⟩
      let processed := addStr (strLower accountLabels.accountAddress) st.2
      let failCase :=
        let failureLabels := accountLabels.withContractFlag false
        let acc1 := acc.addAccountBalanceLabel failureLabels
        let acc2 := (acc1.setG .accountBalanceEth failureLabels 0).setG
          .accountBalanceWei failureLabels 0
        clearTokenMetricsForAccount blockchain chainIdLabel accountLabels false acc2
      let checksumAddress := O.toChecksum account.address
      match O.getBalance checksumAddress with
      | .error _ => (failCase, processed)
      | .ok balanceWei =>
        match O.getCode checksumAddress with
        | .error _ => (failCase, processed)
        | .ok codeLen =>
          let isContract := decide (0 < codeLen)
          let metricLabels := accountLabels.withContractFlag isContract
          let acc1 := acc.addAccountBalanceLabel metricLabels
          let acc2 := (acc1.setG .accountBalanceEth metricLabels
                ((balanceWei : ℚ) / 10 ^ 18)).setG
            .accountBalanceWei metricLabels (balanceWei : ℚ)
          (clearTokenMetricsForAccount blockchain chainIdLabel accountLabels
            isContract acc2, processed))
    (c, [])

/-- `record_additional_contract_accounts` (collectors.py lines 169-245):
contract-embedded accounts not already processed get their eth series
cleared and their token balance recorded (zeroes on `get_code` failure). -/
def recordAdditionalContractAccounts (O : RpcOracle)
    (blockchain : BlockchainConfig) (chainIdLabel : String)
    (c : CollectCtx) (processed : List String) : CollectCtx × List String :=
  blockchain.contracts.foldl
    (fun (st : CollectCtx × List String) contract =>
      if !contract.enabled then st
      else
        contract.accounts.foldl
          (fun (st2 : CollectCtx × List String) contractAccount =>
            if !contractAccount.enabled then st2
            else
              let accountLabels : AccountLabels :=
                ⟨blockchain.name, chainIdLabel, contractAccount.name,
                 contractAccount.address⟩
              let lower := strLower accountLabels.accountAddress
              if st2.2.contains lower then st2
              else
                let processed' := addStr lower st2.2
                let acc1 := clearEthMetricsForAccount accountLabels st2.1
                let checksumAddress := O.toChecksum contractAccount.address
                match O.getCode checksumAddress with
                | .error _ =>
                  let acc2 := recordContractAccountTokenBalanceZero blockchain
                    chainIdLabel contract accountLabels false
                    (contractDecimalsLabel contract none) acc1
                  (clearEthMetricsForAccount accountLabels acc2, processed')
                | .ok codeLen =>
                  (recordContractAccountTokenBalance O blockchain chainIdLabel
                    contract checksumAddress accountLabels
                    (decide (0 < codeLen)) acc1, processed'))
          st)
    (c, processed)

/-- `_record_chain_health_metrics` (poller/collect.py lines 172-247): head
block is mandatory (failure zeroes the three head gauges and returns
`none`), finalized block is best-effort (failure writes 0). -/
def recordChainHealthMetrics (O : RpcOracle) (blockchain : BlockchainConfig)
    (chainIdLabel : String) (c : CollectCtx) : Option Nat × CollectCtx :=
  let metricLabels := [blockchain.name, chainIdLabel]
  match O.getBlock "latest" with
  | .error _ =>
    (none,
     ((c.setG .headBlockNumber metricLabels 0).setG
         .headBlockTimestamp metricLabels 0).setG
       .timeSinceLastBlock metricLabels 0)
  | .ok latestBlock =>
    let c1 := (c.setG .headBlockNumber metricLabels (latestBlock.1 : ℚ)).setG
      .headBlockTimestamp metricLabels latestBlock.2
    let c2 := c1.setG .timeSinceLastBlock metricLabels
      (max (O.now - latestBlock.2) 0)
    let c3 :=
      match O.getBlock "finalized" with
      | .ok finalizedBlock =>
        c2.setG .finalizedBlockNumber metricLabels (finalizedBlock.1 : ℚ)
      | .error _ => c2.setG .finalizedBlockNumber metricLabels 0
    (some latestBlock.1, c3)

/-- `_resolve_chain_id_label` (poller/collect.py lines 250-290): use the
cached label when truthy; otherwise resolve `chainId` and pass it to
`handle_chain_id_update`, falling back to the (re-read) cache and then to
`"unknown"` on failure. -/
def resolveChainIdLabel (O : RpcOracle) (blockchain : BlockchainConfig)
    (s : MetricsState) : String × MetricsState × List MetricOp :=
  let cached := getCachedChainIdLabel blockchain s
  if pyTruthy cached then (cached.getD "unknown", s, [])
  else
    match O.chainId with
    | .ok resolvedId =>
      let resolved := toString resolvedId
      let (s1, t1) := handleChainIdUpdate blockchain resolved s
      (resolved, s1, t1)
    | .error _ =>
      let cachedAgain := getCachedChainIdLabel blockchain s
      if pyTruthy cachedAgain then (cachedAgain.getD "unknown", s, [])
      else
        let (s1, t1) := handleChainIdUpdate blockchain "unknown" s
        ("unknown", s1, t1)

/-- `collect_chain_metrics_sync` (poller/collect.py lines 33-169), as
invoked from the poll loop (RPC client supplied).  Returns the success
flag, the new metrics state, and the full trace of metric operations. -/
def collectChainMetricsSync (O : RpcOracle) (blockchain : BlockchainConfig)
    (s : MetricsState) : Bool × MetricsState × List MetricOp :=
  if !O.isConnected then
    let failed := recordPollFailure blockchain none s
    (false, failed.1, failed.2)
  else
    let resolved := resolveChainIdLabel O blockchain s
    let chainIdLabel := resolved.1
    let ctx0 : CollectCtx :=
      ⟨resolved.2.1, resolved.2.2, ⟨chainIdLabel, [], [], [], []⟩⟩
    let health := recordChainHealthMetrics O blockchain chainIdLabel ctx0
    match health.1 with
    | none =>
      let failed := recordPollFailure blockchain (some chainIdLabel) health.2.s
      (false, failed.1, health.2.trace ++ failed.2)
    | some latestBlockNumber =>
      let ctx2 := recordContractBalances O blockchain chainIdLabel
        latestBlockNumber health.2
      let afterAccounts := recordTopLevelAccounts O blockchain chainIdLabel ctx2
      let afterExtra := recordAdditionalContractAccounts O blockchain
        chainIdLabel afterAccounts.1 afterAccounts.2
      let ctx4 := afterExtra.1
      let s5 := updateChainLabelCache blockchain ctx4.chainState ctx4.s
      let succeeded := recordPollSuccess blockchain ctx4.chainState.chainIdLabel
        O.now s5
      (true, succeeded.1, ctx4.trace ++ succeeded.2)

/-- Is this gauge one of the contract- or account-level metric families? -/
def GaugeId.isAccountOrContractGauge : GaugeId → Bool
  | .accountBalanceEth | .accountBalanceWei | .accountTokenBalance
  | .accountTokenBalanceRaw | .contractBalanceEth | .contractBalanceWei
  | .contractTokenSupply | .contractTransferCount => true
  | _ => false

/-- A write (gauge set) to a contract or account metric. -/
def MetricOp.isAccountOrContractWrite : MetricOp → Bool
  | .setGauge g _ _ => g.isAccountOrContractGauge
  | _ => false

/-! ## Configuration reload — src/blockchain_exporter/reload.py

`reload_configuration` re-reads the configuration; both the cache
invalidation and the read happen before any mutation, so any failure
there (modelled by `Except.error`) returns `(False, reason)` with every
piece of state untouched.  On success it cleans up removed chains,
publishes the new chain count, installs the new context, and delegates
task reconciliation to `PollerManager.reload_tasks`.
-/

/-- The exception classes caught by `reload_configuration`'s handlers
(reload.py lines 109-122). -/
inductive ReloadError where
  | fileNotFound (msg : String)
  | configError (msg : String)
  | validationError (msg : String)
  | unexpected (msg : String)
  deriving Repr, DecidableEq

/-- The `(False, reason)` messages of the three handlers. -/
def reloadErrorMessage : ReloadError → String
  | .fileNotFound m => "Configuration file not found: " ++ m
  | .configError m => "Configuration error: " ++ m
  | .validationError m => "Configuration error: " ++ m
  | .unexpected m => "Unexpected error during reload: " ++ m

/-- Process state visible to the reload path: the application context's
chain list, the metrics state, and the manager's task map (by identity). -/
structure ReloadState where
  contextBlockchains : List BlockchainConfig
  metrics : MetricsState
  managerTasks : List (String × String)

/-- Modelled from the spec: `PollerManager.reload_tasks` is referenced by
reload.py and exercised by the test suite, but the method itself is not
among the provided sources.  Per §4.7 of the specification it computes
added = new∖old and removed = old∖new by chain identity, cancels and
deregisters each removed identity's task, spawns and registers a task per
added chain, and leaves unchanged identities untouched. -/
def reloadTasks (oldBlockchains newBlockchains : List BlockchainConfig)
    (tasks : List (String × String)) : List (String × String) :=
  let oldIdentities := (oldBlockchains.map blockchainIdentity).eraseDups
  let newIdentities := (newBlockchains.map blockchainIdentity).eraseDups
  let removed := oldIdentities.filter (fun i => !newIdentities.contains i)
  let added := newIdentities.filter (fun i => !oldIdentities.contains i)
  tasks.filter (fun i => !removed.contains i) ++ added

/-- The success message (reload.py line 94). -/
def reloadSuccessMessage (addedCount removedCount totalCount : Nat) : String :=
  "Configuration reloaded successfully. Added: " ++ toString addedCount ++
    ", Removed: " ++ toString removedCount ++ ", Total: " ++ toString totalCount

/-- `reload_configuration` (reload.py lines 21-122).  `readResult` models
steps 1-2 (context snapshot, cache invalidation, re-read, validation): an
error there ends the call before any mutation.  On a successful read the
function clears the cached metrics of each removed chain (the source
builds an identity → config map from the old list and clears per removed
identity), publishes the configured-chain count, installs the new
context, and reconciles tasks. -/
def reloadConfiguration (st : ReloadState)
    (readResult : Except ReloadError (List BlockchainConfig)) :
    ReloadState × Bool × String :=
  match readResult with
  | .error e => (st, false, reloadErrorMessage e)
  | .ok newBlockchains =>
    let oldBlockchains := st.contextBlockchains
    let oldIdentities := (oldBlockchains.map blockchainIdentity).eraseDups
    let newIdentities := (newBlockchains.map blockchainIdentity).eraseDups
    let removedIdentities :=
      oldIdentities.filter (fun i => !newIdentities.contains i)
    let removedConfigs := oldBlockchains.filter
      (fun bc => removedIdentities.contains (blockchainIdentity bc))
    let metrics1 := removedConfigs.foldl
      (fun acc bc => (clearCachedMetrics bc acc).1) st.metrics
    let metrics2 := (setConfiguredBlockchains newBlockchains metrics1).1
    let tasks' := reloadTasks oldBlockchains newBlockchains st.managerTasks
    let addedCount :=
      (newIdentities.filter (fun i => !oldIdentities.contains i)).length
    let removedCount := removedIdentities.length
    ({ contextBlockchains := newBlockchains, metrics := metrics2,
       managerTasks := tasks' },
     true,
     reloadSuccessMessage addedCount removedCount newBlockchains.length)

/-! ## Statement helpers and concrete scenario data -/

/-- The chain-level gauge series keys under one `(name, label)` pair. -/
def chainGaugeKeys (blockchain : BlockchainConfig) (chainIdLabel : String) :
    List (GaugeId × List String) :=
  chainLevelGauges.map (fun g => (g, [blockchain.name, chainIdLabel]))

/-- Every series key `clear_cached_metrics` removes for a cached state:
the chain-level gauges under the cached label plus every cached
account/contract/transfer/token series. -/
def clearedSeriesKeys (blockchain : BlockchainConfig)
    (st : ChainMetricLabelState) : List (GaugeId × List String) :=
  chainGaugeKeys blockchain st.chainIdLabel ++ cachedSeriesRemovals st

/-- A metrics state with nothing recorded. -/
def emptyMetricsState : MetricsState :=
  { registry := fun _ _ => none
    labelCache := fun _ => none
    resolvedIds := fun _ => none
    configured := []
    healthStatus := fun _ => none
    lastSuccess := fun _ => none }

/-- Scenario chain "M" (one contract, no accounts) used by the concrete
transfer-count and collection theorems. -/
def scenarioContract : ContractConfig :=
  { name := "T"
    address := "0xaaaaaaaaaaaaaaaaaaaaaaaaaaaaaaaaaaaaaaaa"
    decimals := none
    accounts := []
    transferLookbackBlocks := some 2200 }

def scenarioBlockchain : BlockchainConfig :=
  { name := "M"
    rpcUrl := "https://rpc.example"
    pollInterval := some "5s"
    contracts := [scenarioContract]
    accounts := [] }

/-- The `Web3RPCError` raised by the stubbed `get_logs` on `[0, 1999]`:
a JSON-RPC error object whose message says "response too big". -/
def responseTooBigExc : PyExc :=
  .external
    { typeName := "Web3RPCError"
      message := "\x7b'code': -32000, 'message': 'response too big'\x7d"
      isWeb3RPC := true
      payloadCode := some (-32000)
      payloadMessage := some "response too big" }

/-- A plain timeout exception (used as the "any other failure"). -/
def timeoutExc : PyExc :=
  .external { typeName := "TimeExhausted", message := "Transaction timeout reached" }

/-- RPC stub of the transfer-count chunking scenario: head block 2200,
`get_logs` raising "response too big" on `[0, 1999]` and returning 3, 4
and 2 logs on the three sub-ranges. -/
def scenarioOracle : RpcOracle :=
  { isConnected := true
    chainId := .ok 1
    getBlock := fun _ => .ok (2200, 1000)
    getBalance := fun _ => .ok 0
    getCode := fun _ => .ok 0
    totalSupply := fun _ => .ok 0
    balanceOf := fun _ _ => .ok 0
    decimalsOf := fun _ => .ok 18
    getLogs := fun _ s e =>
      if s == 0 && e == 1999 then .error responseTooBigExc
      else if s == 0 && e == 1499 then .ok 3
      else if s == 1500 && e == 1999 then .ok 4
      else if s == 2000 && e == 2200 then .ok 2
      else .ok 0
    toChecksum := fun a => a
    now := 1000
    chunkCallDur := fun _ => 0 }

/-- The same endpoint with the head-block call failing after retries. -/
def headFailureOracle : RpcOracle :=
  { scenarioOracle with getBlock := fun _ => .error timeoutExc }

/-- The same endpoint with every `get_logs` chunk failing on a timeout
(an error that is not "response too big"). -/
def logsAbortOracle : RpcOracle :=
  { scenarioOracle with getLogs := fun _ _ _ => .error timeoutExc }

/-- Two enabled chains sharing the name "Mainnet" under different URLs
(the configuration of `test_load_blockchain_configs_rejects_duplicate_names`). -/
def dupNameEntryA : BlockchainConfig :=
  { name := "Mainnet", rpcUrl := "https://example.com", pollInterval := none,
    contracts := [], accounts := [] }

def dupNameEntryB : BlockchainConfig :=
  { name := "Mainnet", rpcUrl := "https://example.org", pollInterval := none,
    contracts := [], accounts := [] }

/-- Two enabled chains sharing one URL under different names. -/
def sameUrlEntryA : BlockchainConfig :=
  { name := "Alpha", rpcUrl := "https://example.com", pollInterval := none,
    contracts := [], accounts := [] }

def sameUrlEntryB : BlockchainConfig :=
  { name := "Beta", rpcUrl := "https://example.com", pollInterval := none,
    contracts := [], accounts := [] }

/-- A cached label state for chain "M" under label "1" with one account
balance series, used to exercise the chain-id-change cleanup. -/
def sampleCacheEntry : ChainMetricLabelState :=
  { chainIdLabel := "1"
    accountBalanceLabels := [["M", "1", "A", "0xabc", "0"]] }

/-- A metrics state in which chain "M" resolved to label "1", its label
cache holds `sampleCacheEntry`, and the cached series exists. -/
def sampleResolvedState : MetricsState :=
  { emptyMetricsState with
      resolvedIds := putKey emptyMetricsState.resolvedIds
        (blockchainIdentity scenarioBlockchain) "1"
      labelCache := putKey emptyMetricsState.labelCache
        (blockchainIdentity scenarioBlockchain) sampleCacheEntry
      registry := fun g l =>
        if g = GaugeId.accountBalanceEth ∧ l = ["M", "1", "A", "0xabc", "0"]
        then some 5 else none }

/-- Like `sampleResolvedState` but with an empty label cache (exercises
the `remove_chain_metrics` fallback). -/
def sampleResolvedNoCacheState : MetricsState :=
  { emptyMetricsState with
      resolvedIds := putKey emptyMetricsState.resolvedIds
        (blockchainIdentity scenarioBlockchain) "1" }

/-- A call whose first attempt times out and whose second succeeds, each
attempt taking one second of wall time. -/
def sampleAttempts : AttemptOracle Nat :=
  { run := fun i => if i = 1 then .error timeoutExc else .ok 42
    dur := fun _ => 1 }

/-- A call all of whose attempts time out. -/
def failingAttempts : AttemptOracle Nat :=
  { run := fun _ => .error timeoutExc
    dur := fun _ => 1 }

/-- `responseTooBigExc` as it reaches the chunker: wrapped by the
single-attempt retry executor of `get_logs`. -/
def wrappedTooBigExc : PyExc :=
  wrapRpcException responseTooBigExc scenarioBlockchain "get_logs"
    ("eth_getLogs(" ++ scenarioContract.address ++ ")") 1 1

/-- `timeoutExc` as it reaches the chunker, wrapped the same way. -/
def wrappedTimeoutExc : PyExc :=
  wrapRpcException timeoutExc scenarioBlockchain "get_logs"
    ("eth_getLogs(" ++ scenarioContract.address ++ ")") 1 1

/-- A process state with one configured chain and its running task. -/
def sampleReloadState : ReloadState :=
  { contextBlockchains := [sameUrlEntryA]
    metrics := emptyMetricsState
    managerTasks := [blockchainIdentity sameUrlEntryA] }

/-! # Theorems -/

/-! ## Duration grammar (C7) -/

/-- The unit multiplier, when defined, is one of 1, 60, 3600 — positive. -/
theorem unitMultiplier_pos (u : Option Char) (m : Nat)
    (h : unitMultiplier u = some m) : 0 < m := by
  simp only [unitMultiplier] at h
  split_ifs at h <;> simp_all <;> omega

/-- C7 counterexample: the input "0" matches the pattern, and the parser
returns 0 seconds — not a positive number — so "if the parser returns s
then s > 0" fails at "0". -/
theorem parse_duration_zero_counterexample :
    parseDurationToSeconds "0" = some 0 ∧ ¬ 0 < (0 : Nat) := by
  exact ⟨by decide, by decide⟩

/-- C7 (amended): an input that does not match
`^\s*\d+\s*[smh]?\s*$` is reported invalid (the parser returns no value);
when the parser returns `s` seconds, `s` is the matched amount times a
positive unit multiplier — so `s` is positive exactly when the digit
group is nonzero (a zero amount such as "0" yields `s = 0`, which
`determine_poll_interval_seconds` then treats as invalid). -/
theorem parse_duration_to_seconds_spec (v : String) :
    (durationMatch v = none → parseDurationToSeconds v = none) ∧
    (∀ s, parseDurationToSeconds v = some s →
      ∃ ds u m, durationMatch v = some (ds, u) ∧ unitMultiplier u = some m ∧
        s = digitsToNat ds * m ∧ 0 < m ∧ (0 < digitsToNat ds → 0 < s)) := by
  constructor
  · intro h
    simp [parseDurationToSeconds, h]
  · intro s hs
    unfold parseDurationToSeconds at hs
    cases hd : durationMatch v with
    | none => rw [hd] at hs; exact absurd hs (by simp)
    | some du =>
      obtain ⟨ds, u⟩ := du
      rw [hd] at hs
      simp only at hs
      cases hm : unitMultiplier u with
      | none => rw [hm] at hs; exact absurd hs (by simp)
      | some m =>
        rw [hm] at hs
        simp only [Option.some.injEq] at hs
        have hsm : s = digitsToNat ds * m := hs.symm
        have hmpos := unitMultiplier_pos u m hm
        exact ⟨ds, u, m, rfl, hm, hsm, hmpos,
          fun hds => by rw [hsm]; exact Nat.mul_pos hds hmpos⟩

/-- C7 witness: "abc" does not match and is invalid; "5m" parses to
300 = 5 × 60 seconds, positive. -/
theorem parse_duration_to_seconds_spec_witness :
    parseDurationToSeconds "abc" = none ∧
    (∃ ds u m, durationMatch "5m" = some (ds, u) ∧ unitMultiplier u = some m ∧
      300 = digitsToNat ds * m ∧ 0 < m ∧ (0 < digitsToNat ds → 0 < 300)) :=
  ⟨(parse_duration_to_seconds_spec "abc").1 (by decide),
   (parse_duration_to_seconds_spec "5m").2 300 (by decide)⟩

/-! ## Chain identity and the configuration loader (C8) -/

/-- C8 counterexample: two enabled chains named "Mainnet" with different
RPC URLs are rejected by the loader with a duplicate-name validation
error — the configuration is not accepted. -/
theorem duplicate_name_distinct_urls_rejected :
    loadBlockchainConfigsFromEntries [dupNameEntryA, dupNameEntryB] =
      Except.error
        { message := "Duplicate blockchain name 'Mainnet' detected."
          configSection := "blockchains[2]" } := by
  rfl

/-- C8 (amended): chain identity is the `(name, rpc_url)` pair, and two
enabled chains with the same URL but different names are accepted by the
loader and are distinct; but a configuration holding two enabled chains
whose names coincide case-insensitively is rejected at load time even
when their RPC URLs differ. -/
theorem chain_identity_spec (a b : BlockchainConfig)
    (ha : a.enabled = true) (hb : b.enabled = true) :
    (strLower a.name ≠ strLower b.name →
      loadBlockchainConfigsFromEntries [a, b] = Except.ok [a, b] ∧
      blockchainIdentity a ≠ blockchainIdentity b) ∧
    (strLower a.name = strLower b.name →
      ∃ e, loadBlockchainConfigsFromEntries [a, b] = Except.error e) ∧
    (blockchainIdentity a = blockchainIdentity b ↔
      a.name = b.name ∧ a.rpcUrl = b.rpcUrl) := by
  refine ⟨?_, ?_, ?_⟩
  · intro hne
    have hne' : strLower b.name ≠ strLower a.name := fun h => hne h.symm
    constructor
    · simp [loadBlockchainConfigsFromEntries, loadBlockchainConfigsFromEntries.go,
        ha, hb, List.contains, hne']
    · intro hid
      have : a.name = b.name := congrArg Prod.fst hid
      exact hne (by rw [this])
  · intro heq
    cases hres : loadBlockchainConfigsFromEntries [a, b] with
    | error e => exact ⟨e, rfl⟩
    | ok bs =>
      exfalso
      simp [loadBlockchainConfigsFromEntries, loadBlockchainConfigsFromEntries.go,
        ha, hb, List.contains, heq] at hres
  · constructor
    · intro hid
      exact ⟨congrArg Prod.fst hid, congrArg Prod.snd hid⟩
    · intro ⟨h1, h2⟩
      simp [blockchainIdentity, h1, h2]

/-- C8 witness: "Alpha"/"Beta" on one URL are accepted and distinct;
"Mainnet"/"Mainnet" on two URLs are rejected. -/
theorem chain_identity_spec_witness :
    (loadBlockchainConfigsFromEntries [sameUrlEntryA, sameUrlEntryB] =
        Except.ok [sameUrlEntryA, sameUrlEntryB] ∧
      blockchainIdentity sameUrlEntryA ≠ blockchainIdentity sameUrlEntryB) ∧
    (∃ e, loadBlockchainConfigsFromEntries [dupNameEntryA, dupNameEntryB] =
        Except.error e) :=
  ⟨(chain_identity_spec sameUrlEntryA sameUrlEntryB rfl rfl).1 (by decide),
   (chain_identity_spec dupNameEntryA dupNameEntryB rfl rfl).2.1 (by decide)⟩

/-! ## Poll-loop failure backoff (C4) -/

/-- C4: for `consecutive_failures = n ≥ 1` the sleep target is
`min(interval × 2^(n−1), MAX_FAILURE_BACKOFF_SECONDS)` and the actual
sleep is `max(target − elapsed, 0)`; a successful iteration resets the
counter so the next target is the configured interval; with interval 10 s
and ceiling 900 s, three consecutive failures then a success yield
targets 10 s, 20 s, 40 s, 10 s. -/
theorem poll_backoff_spec (intervalSeconds maxBackoff n : Nat) (elapsed : ℚ)
    (hn : 1 ≤ n) :
    iterationSleepTarget intervalSeconds n maxBackoff =
      min (intervalSeconds * 2 ^ (n - 1)) maxBackoff ∧
    iterationSleepSeconds intervalSeconds n maxBackoff elapsed =
      max ((iterationSleepTarget intervalSeconds n maxBackoff : ℚ) - elapsed) 0 ∧
    (∀ m, nextConsecutiveFailures true m = 0) ∧
    iterationSleepTarget intervalSeconds 0 maxBackoff = intervalSeconds ∧
    pollSleepTargets 10 MAX_FAILURE_BACKOFF_SECONDS 0 [false, false, false, true] =
      [10, 20, 40, 10] := by
  have hpos : 0 < n := hn
  refine ⟨?_, ?_, fun m => rfl, rfl, by decide⟩
  · simp [iterationSleepTarget, failureBackoffTarget, hpos]
  · simp [iterationSleepTarget, iterationSleepSeconds, hpos]

/-- C4 witness: at interval 10 s, ceiling 900 s, n = 3, elapsed 2 s. -/
theorem poll_backoff_spec_witness :
    iterationSleepTarget 10 3 900 = min (10 * 2 ^ (3 - 1)) 900 ∧
    iterationSleepSeconds 10 3 900 2 =
      max ((iterationSleepTarget 10 3 900 : ℚ) - 2) 0 ∧
    (∀ m, nextConsecutiveFailures true m = 0) ∧
    iterationSleepTarget 10 0 900 = 10 ∧
    pollSleepTargets 10 MAX_FAILURE_BACKOFF_SECONDS 0 [false, false, false, true] =
      [10, 20, 40, 10] :=
  poll_backoff_spec 10 900 3 2 (by decide)

/-! ## Adaptive chunker (C3, C9, C10) -/

/-- Every pending range weighs at least 1. -/
theorem rangeWeight_pos (r : Nat × Nat) : 1 ≤ rangeWeight r := by
  unfold rangeWeight; split <;> omega

theorem chunkMeasure_cons (r : Nat × Nat) (rest : List (Nat × Nat)) :
    chunkMeasure (r :: rest) = rangeWeight r + chunkMeasure rest := by
  simp [chunkMeasure]

/-- `Option.map` preserves definedness. -/
theorem isSome_omap {α β : Type} (f : α → β) (x : Option α) :
    (x.map f).isSome = x.isSome := by
  cases x <;> rfl

/-- Chunk-size adjustment preserves positivity. -/
theorem adjustChunkSizeOnSuccess_pos (cs n : Nat) (h : 1 ≤ cs) :
    1 ≤ adjustChunkSizeOnSuccess cs n := by
  simp only [adjustChunkSizeOnSuccess, LOG_MIN_CHUNK_SIZE, LOG_MAX_CHUNK_SIZE,
    LOG_TARGET_RESPONSE_SIZE]
  split_ifs <;> omega

/-- Fuel sufficiency for the chunker loop: with a positive chunk size,
`chunkMeasure stack` steps of fuel always complete the loop — each
iteration strictly decreases the total range weight. -/
theorem chunkerGo_fuel_sufficient (O : RpcOracle) (blockchain : BlockchainConfig)
    (contractAddress : String) :
    ∀ fuel stack cs total idx, 1 ≤ cs → chunkMeasure stack ≤ fuel →
      (chunkerGo O blockchain contractAddress fuel stack cs total idx).isSome = true := by
  intro fuel
  induction fuel with
  | zero =>
    intro stack cs total idx hcs hm
    cases stack with
    | nil => simp [chunkerGo]
    | cons hd tl =>
      have := rangeWeight_pos hd
      rw [chunkMeasure_cons] at hm
      omega
  | succ fuel ih =>
    intro stack cs total idx hcs hm
    cases stack with
    | nil => simp [chunkerGo]
    | cons hd tl =>
      obtain ⟨s, e⟩ := hd
      have w0 : rangeWeight (s, e) = if s ≤ e then 2 * (e + 1 - s) - 1 else 1 := rfl
      rw [chunkMeasure_cons] at hm
      simp only [chunkerGo, LOG_MIN_CHUNK_SIZE, LOG_SPLIT_MIN_BLOCK_SPAN]
      split
      case isTrue h1 =>
        apply ih _ cs total idx hcs
        have := rangeWeight_pos (s, e)
        omega
      case isFalse h1 =>
        have hse : s ≤ e := by omega
        rw [if_pos hse] at w0
        split
        case isTrue h2 =>
          apply ih _ cs total idx hcs
          rw [chunkMeasure_cons, chunkMeasure_cons]
          have w1 : rangeWeight (s, s + cs - 1) = 2 * cs - 1 := by
            unfold rangeWeight
            rw [if_pos (by omega)]
            omega
          have w2 : rangeWeight (s + cs - 1 + 1, e) = 2 * (e + 1 - s - cs) - 1 := by
            unfold rangeWeight
            rw [if_pos (by omega)]
            omega
          omega
        case isFalse h2 =>
          split
          case h_1 logs heq =>
            rw [isSome_omap]
            apply ih _ _ _ _ (adjustChunkSizeOnSuccess_pos cs logs hcs)
            omega
          case h_2 exc heq =>
            split
            case isTrue h3 =>
              have h3' : 1 < e - s + 1 := by
                have hand := (Bool.and_eq_true _ _).mp h3
                have := of_decide_eq_true hand.2
                omega
              rw [isSome_omap]
              split
              case isTrue h4 =>
                apply ih _ _ _ _ (by omega)
                rw [chunkMeasure_cons, chunkMeasure_cons]
                have hn : 1 ≤ max (3 * cs / 4) 100 := by omega
                have w1 : rangeWeight (s, s + max (3 * cs / 4) 100 - 1) =
                    2 * max (3 * cs / 4) 100 - 1 := by
                  unfold rangeWeight
                  rw [if_pos (by omega)]
                  omega
                have w2 : rangeWeight (s + max (3 * cs / 4) 100 - 1 + 1, e) =
                    2 * (e + 1 - s - max (3 * cs / 4) 100) - 1 := by
                  unfold rangeWeight
                  rw [if_pos (by omega)]
                  omega
                omega
              case isFalse h4 =>
                apply ih _ _ _ _ (by omega)
                rw [chunkMeasure_cons, chunkMeasure_cons]
                have w1 : rangeWeight (s, s + (e - s) / 2) = 2 * ((e - s) / 2 + 1) - 1 := by
                  unfold rangeWeight
                  rw [if_pos (by omega)]
                  omega
                have w2 : rangeWeight (s + (e - s) / 2 + 1, e) =
                    2 * (e - s - (e - s) / 2) - 1 := by
                  unfold rangeWeight
                  rw [if_pos (by omega)]
                  omega
                omega
            case isFalse h3 =>
              simp

/-- C10: for every window with `start_block ≤ end_block` and any oracle
(every `get_logs` call either returns or raises a modelled exception),
the adaptive chunker's pending-range stack is exhausted within
`chunkMeasure` iterations: the fuelled loop does not run out. -/
theorem adaptive_chunker_terminates (O : RpcOracle)
    (blockchain : BlockchainConfig) (contractAddress : String)
    (window : TransferWindow)
    (h : window.startBlock ≤ window.endBlock) :
    (chunkerGo O blockchain contractAddress
        (chunkMeasure [(window.startBlock, window.endBlock)] + 1)
        [(window.startBlock, window.endBlock)] LOG_MAX_CHUNK_SIZE 0 0).isSome = true :=
  chunkerGo_fuel_sufficient O blockchain contractAddress _ _ _ _ _
    (by norm_num [LOG_MAX_CHUNK_SIZE]) (by omega)

/-- C10 witness: the scenario window `[0, 2200]`. -/
theorem adaptive_chunker_terminates_witness :
    (chunkerGo scenarioOracle scenarioBlockchain scenarioContract.address
        (chunkMeasure [(0, 2200)] + 1) [(0, 2200)] LOG_MAX_CHUNK_SIZE 0 0).isSome = true :=
  adaptive_chunker_terminates scenarioOracle scenarioBlockchain
    scenarioContract.address { startBlock := 0, endBlock := 2200, span := 2200 }
    (by decide)

/-- C3: for the contract window `[0, 2200]` (head 2200, lookback 2200)
with the stubbed endpoint — `get_logs([0,1999])` raising "response too
big" and the follow-up calls returning 3, 4 and 2 logs — the chunker
shrinks 2000 → 1500, re-pushes the failed range split at 1500, issues the
queries in ascending block order `[0,1499]`, `[1500,1999]`, `[2000,2200]`,
totals 9, the chunk-created counter is incremented once per issued
`get_logs` call (4 in all, the failed one included), and
`record_contract_balances` writes 9 to the transfer gauge under
`window_blocks = "2200"`. -/
theorem transfer_chunking_scenario :
    resolveTransferLookupWindow scenarioContract 2200 =
      { startBlock := 0, endBlock := 2200, span := 2200 } ∧
    (collectContractTransferCount scenarioOracle scenarioBlockchain
        scenarioContract.address
        (resolveTransferLookupWindow scenarioContract 2200)).1 = some 9 ∧
    (collectContractTransferCount scenarioOracle scenarioBlockchain
        scenarioContract.address
        (resolveTransferLookupWindow scenarioContract 2200)).2.filter
        (fun ev => match ev with | ChunkEvent.called _ _ => true | _ => false) =
      [ChunkEvent.called 0 1999, ChunkEvent.called 0 1499,
       ChunkEvent.called 1500 1999, ChunkEvent.called 2000 2200] ∧
    ((collectContractTransferCount scenarioOracle scenarioBlockchain
        scenarioContract.address
        (resolveTransferLookupWindow scenarioContract 2200)).2.filter
        (fun ev => match ev with | ChunkEvent.chunkCreated => true | _ => false)).length = 4 ∧
    MetricOp.setGauge GaugeId.contractTransferCount
        ["M", "1", "T", "0xaaaaaaaaaaaaaaaaaaaaaaaaaaaaaaaaaaaaaaaa", "2200"] 9 ∈
      (recordContractBalances scenarioOracle scenarioBlockchain "1" 2200
        ⟨emptyMetricsState, [], { chainIdLabel := "1" }⟩).trace := by
  refine ⟨by decide, by decide, by decide, by decide, by decide⟩

/-- C9: when a ready-to-query chunk's `get_logs` fails, a failure
classified "response too big" on a span of more than one block shrinks
the chunk size to `max(⌊0.75·cs⌋, 100)` and re-pushes the failed range as
two adjacent sub-ranges covering it, without adding to the running total;
any other failure — a non-"too big" error, or "too big" on a single-block
chunk — aborts the window, the loop returning `none` ("unknown"), and
`record_contract_balances` then leaves the transfer gauge at 0 (shown on
the always-timing-out endpoint). -/
theorem chunker_failure_handling (O : RpcOracle) (blockchain : BlockchainConfig)
    (contractAddress : String) (fuel s e cs total idx : Nat)
    (rest : List (Nat × Nat)) (exc : PyExc)
    (hse : s ≤ e) (hspan : e - s + 1 ≤ cs)
    (herr : wrappedGetLogs O blockchain contractAddress s e = .error exc) :
    (isResponseTooBigError exc = true → 1 < e - s + 1 →
      ∃ r1 r2 : Nat × Nat,
        chunkerGo O blockchain contractAddress (fuel + 1) ((s, e) :: rest) cs total idx =
          (chunkerGo O blockchain contractAddress fuel (r1 :: r2 :: rest)
              (max (3 * cs / 4) LOG_MIN_CHUNK_SIZE) total (idx + 1)).map
            (fun r => (r.1,
              ChunkEvent.chunkCreated :: ChunkEvent.called s e ::
                ChunkEvent.blocksObs (e - s + 1) ::
                ChunkEvent.durObs (O.chunkCallDur idx) :: r.2)) ∧
        r1.1 = s ∧ r2.2 = e ∧ r1.2 + 1 = r2.1 ∧ r1.1 ≤ r1.2 ∧ r2.1 ≤ r2.2) ∧
    (isResponseTooBigError exc = false ∨ e - s + 1 = 1 →
      chunkerGo O blockchain contractAddress (fuel + 1) ((s, e) :: rest) cs total idx =
        some (none,
          [ChunkEvent.chunkCreated, ChunkEvent.called s e,
           ChunkEvent.blocksObs (e - s + 1), ChunkEvent.durObs (O.chunkCallDur idx)])) ∧
    (collectContractTransferCount logsAbortOracle scenarioBlockchain
        scenarioContract.address
        (resolveTransferLookupWindow scenarioContract 2200)).1 = none ∧
    MetricOp.setGauge GaugeId.contractTransferCount
        ["M", "1", "T", "0xaaaaaaaaaaaaaaaaaaaaaaaaaaaaaaaaaaaaaaaa", "2200"] 0 ∈
      (recordContractBalances logsAbortOracle scenarioBlockchain "1" 2200
        ⟨emptyMetricsState, [], { chainIdLabel := "1" }⟩).trace := by
  refine ⟨?_, ?_, by decide, by decide⟩
  · intro hbig hspan1
    have hcond : (isResponseTooBigError exc &&
        decide (e - s + 1 > LOG_SPLIT_MIN_BLOCK_SPAN)) = true := by
      simp [hbig, LOG_SPLIT_MIN_BLOCK_SPAN]
      omega
    simp only [chunkerGo, herr, hcond, if_neg (show ¬ s > e by omega),
      if_neg (show ¬ e - s + 1 > cs by omega), if_true, LOG_MIN_CHUNK_SIZE]
    by_cases h4 : e - s + 1 > max (3 * cs / 4) 100
    · refine ⟨(s, s + max (3 * cs / 4) 100 - 1), (s + max (3 * cs / 4) 100 - 1 + 1, e),
        ?_, rfl, rfl, rfl, by omega, by omega⟩
      rw [if_pos h4]
    · refine ⟨(s, s + (e - s) / 2), (s + (e - s) / 2 + 1, e),
        ?_, rfl, rfl, rfl, by omega, by omega⟩
      rw [if_neg h4]
  · intro habort
    have hcond : (isResponseTooBigError exc &&
        decide (e - s + 1 > LOG_SPLIT_MIN_BLOCK_SPAN)) = false := by
      rcases habort with hb | hone
      · simp [hb]
      · simp [LOG_SPLIT_MIN_BLOCK_SPAN, hone]
    simp only [chunkerGo, herr, hcond, if_neg (show ¬ s > e by omega),
      if_neg (show ¬ e - s + 1 > cs by omega), Bool.false_eq_true, if_false]

/-- C9 witness: the too-big branch at the scenario's failed chunk
`[0, 1999]`, and the abort branch on a timed-out chunk `[2000, 2200]`. -/
theorem chunker_failure_handling_witness :
    (∃ r1 r2 : Nat × Nat,
      chunkerGo scenarioOracle scenarioBlockchain scenarioContract.address
          (10 + 1) ((0, 1999) :: []) 2000 0 0 =
        (chunkerGo scenarioOracle scenarioBlockchain scenarioContract.address 10
            (r1 :: r2 :: []) (max (3 * 2000 / 4) LOG_MIN_CHUNK_SIZE) 0 (0 + 1)).map
          (fun r => (r.1,
            ChunkEvent.chunkCreated :: ChunkEvent.called 0 1999 ::
              ChunkEvent.blocksObs (1999 - 0 + 1) ::
              ChunkEvent.durObs (scenarioOracle.chunkCallDur 0) :: r.2)) ∧
      r1.1 = 0 ∧ r2.2 = 1999 ∧ r1.2 + 1 = r2.1 ∧ r1.1 ≤ r1.2 ∧ r2.1 ≤ r2.2) ∧
    chunkerGo logsAbortOracle scenarioBlockchain scenarioContract.address
        (10 + 1) ((2000, 2200) :: []) 2000 5 3 =
      some (none,
        [ChunkEvent.chunkCreated, ChunkEvent.called 2000 2200,
         ChunkEvent.blocksObs (2200 - 2000 + 1),
         ChunkEvent.durObs (logsAbortOracle.chunkCallDur 3)]) :=
  ⟨(chunker_failure_handling scenarioOracle scenarioBlockchain
      scenarioContract.address 10 0 1999 2000 0 0 [] wrappedTooBigExc
      (by decide) (by decide) rfl).1 (by decide) (by decide),
   (chunker_failure_handling logsAbortOracle scenarioBlockchain
      scenarioContract.address 10 2000 2200 2000 5 3 [] wrappedTimeoutExc
      (by decide) (by decide) rfl).2.1 (Or.inl (by decide))⟩

/-! ## Label lifecycle (C5) -/

/-- Removing a series makes it absent. -/
theorem srem_self_none (s : MetricsState) (g : GaugeId) (l : List String) :
    (s.srem g l).registry g l = none := by
  simp [MetricsState.srem]

/-- Safe-remove never resurrects an absent series. -/
theorem srem_preserve_none (s : MetricsState) (g : GaugeId) (l : List String)
    (g' : GaugeId) (l' : List String) (h : s.registry g' l' = none) :
    (s.srem g l).registry g' l' = none := by
  simp only [MetricsState.srem]
  split
  · rfl
  · exact h

/-- A batch of safe-removes never resurrects an absent series. -/
theorem foldl_srem_preserve_none (pairs : List (GaugeId × List String)) :
    ∀ (s : MetricsState) (g : GaugeId) (l : List String),
      s.registry g l = none →
      ((pairs.foldl (fun acc p => acc.srem p.1 p.2) s).registry g l = none) := by
  induction pairs with
  | nil => intro s g l h; simpa using h
  | cons p rest ih =>
    intro s g l h
    simp only [List.foldl_cons]
    exact ih _ _ _ (srem_preserve_none _ _ _ _ _ h)

/-- After a batch of safe-removes, every removed series is absent. -/
theorem foldl_srem_none_of_mem (pairs : List (GaugeId × List String)) :
    ∀ (s : MetricsState) (k : GaugeId × List String), k ∈ pairs →
      ((pairs.foldl (fun acc p => acc.srem p.1 p.2) s).registry k.1 k.2 = none) := by
  induction pairs with
  | nil => intro s k hk; cases hk
  | cons p rest ih =>
    intro s k hk
    simp only [List.foldl_cons]
    rcases List.mem_cons.mp hk with hk | hk
    · subst hk
      exact foldl_srem_preserve_none rest _ _ _ (srem_self_none _ _ _)
    · exact ih _ _ hk

/-- `clear_cached_metrics` removes every series it enumerates: the
chain-level gauges under the cached label and every cached series. -/
theorem clearCachedMetrics_registry_none (bc : BlockchainConfig)
    (st : ChainMetricLabelState) (s : MetricsState)
    (hcache : s.labelCache (blockchainIdentity bc) = some st) :
    ∀ k ∈ clearedSeriesKeys bc st,
      ((clearCachedMetrics bc s).1).registry k.1 k.2 = none := by
  intro k hk
  simp only [clearCachedMetrics, hcache, removeChainMetricsForLabel, sremMany]
  rcases List.mem_append.mp hk with hk | hk
  · apply foldl_srem_preserve_none
    simp only [chainGaugeKeys] at hk
    exact foldl_srem_none_of_mem _ _ _ hk
  · exact foldl_srem_none_of_mem _ _ _ hk

/-- C5: `handle_chain_id_update(chain, new_label)` is a no-op when the
previously resolved label equals `new_label`.  When a (truthy) previous
label differs, the new label ends up recorded in `resolved_chain_ids`,
and beforehand every metric series recorded under the previous label is
removed: with a label-cache entry, `clear_cached_metrics` removes all
series the entry lists plus the chain-level gauges under its label;
without one, the fallback `remove_chain_metrics` removes the chain-level
gauges under the previous label. -/
theorem handle_chain_id_update_spec (bc : BlockchainConfig) (newLabel : String)
    (s : MetricsState) :
    (s.resolvedIds (blockchainIdentity bc) = some newLabel →
      handleChainIdUpdate bc newLabel s = (s, [])) ∧
    (∀ p, s.resolvedIds (blockchainIdentity bc) = some p → p ≠ "" → p ≠ newLabel →
      (handleChainIdUpdate bc newLabel s).1.resolvedIds (blockchainIdentity bc) =
        some newLabel ∧
      (∀ st, s.labelCache (blockchainIdentity bc) = some st →
        ∀ k ∈ clearedSeriesKeys bc st,
          (handleChainIdUpdate bc newLabel s).1.registry k.1 k.2 = none) ∧
      (s.labelCache (blockchainIdentity bc) = none →
        ∀ k ∈ chainGaugeKeys bc p,
          (handleChainIdUpdate bc newLabel s).1.registry k.1 k.2 = none)) := by
  constructor
  · intro hprev
    simp [handleChainIdUpdate, hprev]
  · intro p hprev hne hnewne
    have hneq : ¬ s.resolvedIds (blockchainIdentity bc) = some newLabel := by
      rw [hprev]
      intro h
      exact hnewne (Option.some.inj h)
    have htruthy : pyTruthy (s.resolvedIds (blockchainIdentity bc)) = true := by
      rw [hprev]; simpa [pyTruthy] using hne
    refine ⟨?_, ?_, ?_⟩
    · simp only [handleChainIdUpdate, if_neg hneq, htruthy, if_true]
      cases hcache : s.labelCache (blockchainIdentity bc) with
      | some st =>
        simp only [clearCachedMetrics, hcache]
        simp [putKey]
      | none =>
        simp only [clearCachedMetrics, hcache]
        simp [putKey]
    · intro st hcache k hk
      simp only [handleChainIdUpdate, if_neg hneq, htruthy, if_true]
      have hcleared : (clearCachedMetrics bc s).2.2 = true := by
        simp [clearCachedMetrics, hcache]
      rcases hres : clearCachedMetrics bc s with ⟨s', t', cleared⟩
      rw [hres] at hcleared
      simp only at hcleared
      subst hcleared
      simp only [if_true]
      have := clearCachedMetrics_registry_none bc st s hcache k hk
      rw [hres] at this
      exact this
    · intro hcache k hk
      simp only [handleChainIdUpdate, if_neg hneq, htruthy, if_true]
      have hres : clearCachedMetrics bc s = (s, [], false) := by
        simp [clearCachedMetrics, hcache]
      rw [hres]
      simp only [Bool.false_eq_true, if_false]
      have hgetD : (s.resolvedIds (blockchainIdentity bc)).getD "" = p := by
        rw [hprev]; rfl
      rw [hgetD]
      simp only [removeChainMetricsForLabel, sremMany]
      simp only [chainGaugeKeys] at hk
      exact foldl_srem_none_of_mem _ _ _ hk

/-- C5 witness: re-resolving "1" on the sample state is a no-op;
re-resolving "2" records the new label and removes the cached account
series; with an empty cache, the chain-level gauge under the previous
label is removed by the fallback. -/
theorem handle_chain_id_update_spec_witness :
    handleChainIdUpdate scenarioBlockchain "1" sampleResolvedState =
      (sampleResolvedState, []) ∧
    (handleChainIdUpdate scenarioBlockchain "2" sampleResolvedState).1.resolvedIds
        (blockchainIdentity scenarioBlockchain) = some "2" ∧
    (handleChainIdUpdate scenarioBlockchain "2" sampleResolvedState).1.registry
        GaugeId.accountBalanceEth ["M", "1", "A", "0xabc", "0"] = none ∧
    (handleChainIdUpdate scenarioBlockchain "2" sampleResolvedNoCacheState).1.registry
        GaugeId.pollSuccess ["M", "1"] = none := by
  have hchanged :=
    (handle_chain_id_update_spec scenarioBlockchain "2" sampleResolvedState).2
      "1" (by decide) (by decide) (by decide)
  have hnocache :=
    (handle_chain_id_update_spec scenarioBlockchain "2" sampleResolvedNoCacheState).2
      "1" (by decide) (by decide) (by decide)
  refine ⟨(handle_chain_id_update_spec scenarioBlockchain "1" sampleResolvedState).1
      (by decide), hchanged.1, ?_, ?_⟩
  · exact hchanged.2.1 sampleCacheEntry (by decide)
      (GaugeId.accountBalanceEth, ["M", "1", "A", "0xabc", "0"]) (by decide)
  · exact hnocache.2.2 (by decide) (GaugeId.pollSuccess, ["M", "1"]) (by decide)

/-! ## Configuration reload (C1) -/

/-- C1: when re-reading or validating the configuration fails, the reload
returns `(False, reason)` and leaves the state — application context,
configured-chains set, metric series, tasks — untouched; when the re-read
succeeds, it returns `(True, message)` where the message carries the
added, removed and total chain counts (prefixed
"Configuration reloaded successfully. "), installs the new context, and
delegates task reconciliation to `PollerManager.reload_tasks`. -/
theorem reload_configuration_spec (st : ReloadState)
    (r : Except ReloadError (List BlockchainConfig)) :
    (∀ e, r = Except.error e →
      reloadConfiguration st r = (st, false, reloadErrorMessage e)) ∧
    (∀ newBlockchains, r = Except.ok newBlockchains →
      (reloadConfiguration st r).2.1 = true ∧
      (reloadConfiguration st r).2.2 =
        reloadSuccessMessage
          (((newBlockchains.map blockchainIdentity).eraseDups.filter
              (fun i => !((st.contextBlockchains.map blockchainIdentity).eraseDups.contains i))).length)
          (((st.contextBlockchains.map blockchainIdentity).eraseDups.filter
              (fun i => !((newBlockchains.map blockchainIdentity).eraseDups.contains i))).length)
          newBlockchains.length ∧
      (reloadConfiguration st r).1.contextBlockchains = newBlockchains ∧
      (reloadConfiguration st r).1.managerTasks =
        reloadTasks st.contextBlockchains newBlockchains st.managerTasks) := by
  constructor
  · intro e he
    subst he
    rfl
  · intro newBlockchains hnb
    subst hnb
    exact ⟨rfl, rfl, rfl, rfl⟩

/-- C1 witness: a failed read returns the reason and the untouched state;
a successful read of the scenario chain reports Added: 1, Removed: 1,
Total: 1 against the one-chain state. -/
theorem reload_configuration_spec_witness :
    reloadConfiguration sampleReloadState (Except.error (ReloadError.configError "boom")) =
      (sampleReloadState, false, reloadErrorMessage (ReloadError.configError "boom")) ∧
    ((reloadConfiguration sampleReloadState (Except.ok [scenarioBlockchain])).2.1 = true ∧
      (reloadConfiguration sampleReloadState (Except.ok [scenarioBlockchain])).2.2 =
        reloadSuccessMessage
          ((([scenarioBlockchain].map blockchainIdentity).eraseDups.filter
              (fun i => !((sampleReloadState.contextBlockchains.map blockchainIdentity).eraseDups.contains i))).length)
          (((sampleReloadState.contextBlockchains.map blockchainIdentity).eraseDups.filter
              (fun i => !(([scenarioBlockchain].map blockchainIdentity).eraseDups.contains i))).length)
          [scenarioBlockchain].length ∧
      (reloadConfiguration sampleReloadState (Except.ok [scenarioBlockchain])).1.contextBlockchains =
        [scenarioBlockchain] ∧
      (reloadConfiguration sampleReloadState (Except.ok [scenarioBlockchain])).1.managerTasks =
        reloadTasks sampleReloadState.contextBlockchains [scenarioBlockchain]
          sampleReloadState.managerTasks) :=
  ⟨(reload_configuration_spec sampleReloadState
      (Except.error (ReloadError.configError "boom"))).1 _ rfl,
   (reload_configuration_spec sampleReloadState
      (Except.ok [scenarioBlockchain])).2 _ rfl⟩

/-! ## Head-block failure during one iteration (C2) -/

/-- Safe-remove batches record only removals, never writes. -/
theorem sremMany_trace_no_writes (s : MetricsState)
    (pairs : List (GaugeId × List String)) :
    ∀ op ∈ (sremMany s pairs).2, op.isAccountOrContractWrite = false := by
  intro op hop
  simp only [sremMany] at hop
  obtain ⟨p, hp, rfl⟩ := List.mem_map.mp hop
  rfl

/-- `remove_chain_metrics_for_label` records only removals. -/
theorem removeChainMetricsForLabel_no_writes (bc : BlockchainConfig)
    (l : String) (s : MetricsState) :
    ∀ op ∈ (removeChainMetricsForLabel bc l s).2, op.isAccountOrContractWrite = false := by
  intro op hop
  exact sremMany_trace_no_writes s _ op hop

/-- `clear_cached_metrics` records only removals. -/
theorem clearCachedMetrics_no_writes (bc : BlockchainConfig) (s : MetricsState) :
    ∀ op ∈ (clearCachedMetrics bc s).2.1, op.isAccountOrContractWrite = false := by
  intro op hop
  cases hcache : s.labelCache (blockchainIdentity bc) with
  | none => simp [clearCachedMetrics, hcache] at hop
  | some st =>
    simp only [clearCachedMetrics, hcache] at hop
    rcases List.mem_append.mp hop with h | h
    · exact removeChainMetricsForLabel_no_writes bc _ _ op h
    · exact sremMany_trace_no_writes _ _ op h

/-- `handle_chain_id_update` records only removals. -/
theorem handleChainIdUpdate_no_writes (bc : BlockchainConfig) (newLabel : String)
    (s : MetricsState) :
    ∀ op ∈ (handleChainIdUpdate bc newLabel s).2, op.isAccountOrContractWrite = false := by
  intro op hop
  simp only [handleChainIdUpdate] at hop
  by_cases hprev : s.resolvedIds (blockchainIdentity bc) = some newLabel
  · simp [hprev] at hop
  · rw [if_neg hprev] at hop
    by_cases htruthy : pyTruthy (s.resolvedIds (blockchainIdentity bc)) = true
    · rw [htruthy] at hop
      simp only [if_true] at hop
      rcases hres : clearCachedMetrics bc s with ⟨s', t', cleared⟩
      rw [hres] at hop
      cases cleared with
      | true =>
        simp only at hop
        have := clearCachedMetrics_no_writes bc s op
        rw [hres] at this
        exact this hop
      | false =>
        simp only at hop
        exact removeChainMetricsForLabel_no_writes bc _ s' op hop
    · have : pyTruthy (s.resolvedIds (blockchainIdentity bc)) = false := by
        revert htruthy
        cases pyTruthy (s.resolvedIds (blockchainIdentity bc)) <;> simp
      rw [this] at hop
      simp at hop

/-- `_resolve_chain_id_label` records only removals. -/
theorem resolveChainIdLabel_no_writes (O : RpcOracle) (bc : BlockchainConfig)
    (s : MetricsState) :
    ∀ op ∈ (resolveChainIdLabel O bc s).2.2, op.isAccountOrContractWrite = false := by
  intro op hop
  simp only [resolveChainIdLabel] at hop
  by_cases hc : pyTruthy (getCachedChainIdLabel bc s) = true
  · simp [hc] at hop
  · have hcf : pyTruthy (getCachedChainIdLabel bc s) = false := by
      revert hc
      cases pyTruthy (getCachedChainIdLabel bc s) <;> simp
    rw [hcf] at hop
    simp only [Bool.false_eq_true, if_false] at hop
    cases hid : O.chainId with
    | ok n =>
      rw [hid] at hop
      simp only at hop
      rcases hres : handleChainIdUpdate bc (toString n) s with ⟨s', t'⟩
      rw [hres] at hop
      simp only at hop
      have := handleChainIdUpdate_no_writes bc (toString n) s op
      rw [hres] at this
      exact this hop
    | error e =>
      rw [hid] at hop
      simp only [hcf, Bool.false_eq_true, if_false] at hop
      rcases hres : handleChainIdUpdate bc "unknown" s with ⟨s', t'⟩
      rw [hres] at hop
      simp only at hop
      have := handleChainIdUpdate_no_writes bc "unknown" s op
      rw [hres] at this
      exact this hop

/-- `reset_chain_metrics` writes only chain-level gauges. -/
theorem resetChainMetrics_no_writes (bc : BlockchainConfig) (l : Option String)
    (s : MetricsState) :
    ∀ op ∈ (resetChainMetrics bc l s).2, op.isAccountOrContractWrite = false := by
  intro op hop
  simp only [resetChainMetrics] at hop
  obtain ⟨g, hg, rfl⟩ := List.mem_map.mp hop
  fin_cases hg <;> rfl

/-- `record_poll_failure` never writes an account or contract metric. -/
theorem recordPollFailure_no_writes (bc : BlockchainConfig) (l : Option String)
    (s : MetricsState) :
    ∀ op ∈ (recordPollFailure bc l s).2, op.isAccountOrContractWrite = false := by
  intro op hop
  simp only [recordPollFailure] at hop
  rcases hreset : resetChainMetrics bc (some (resolveLabelOrUnknown bc l s))
      ((s.set GaugeId.pollSuccess [bc.name, resolveLabelOrUnknown bc l s] 0).set
        GaugeId.pollTimestamp [bc.name, resolveLabelOrUnknown bc l s] 0) with ⟨s2, t2⟩
  rw [hreset] at hop
  simp only at hop
  rcases hclear : clearCachedMetrics bc s2 with ⟨s3, t3, cleared⟩
  rw [hclear] at hop
  simp only at hop
  rcases List.mem_append.mp hop with h | h
  · rcases List.mem_append.mp h with h | h
    · rcases List.mem_cons.mp h with h | h
      · subst h; rfl
      · rcases List.mem_cons.mp h with h | h
        · subst h; rfl
        · cases h
    · have := resetChainMetrics_no_writes bc (some (resolveLabelOrUnknown bc l s))
        ((s.set GaugeId.pollSuccess [bc.name, resolveLabelOrUnknown bc l s] 0).set
          GaugeId.pollTimestamp [bc.name, resolveLabelOrUnknown bc l s] 0) op
      rw [hreset] at this
      exact this h
  · have := clearCachedMetrics_no_writes bc s2 op
    rw [hclear] at this
    exact this h

/-- `record_poll_failure` writes 0 to `poll_success` for the chain. -/
theorem recordPollFailure_sets_poll_success (bc : BlockchainConfig)
    (l : Option String) (s : MetricsState) :
    MetricOp.setGauge GaugeId.pollSuccess [bc.name, resolveLabelOrUnknown bc l s] 0 ∈
      (recordPollFailure bc l s).2 := by
  simp only [recordPollFailure]
  rcases hreset : resetChainMetrics bc (some (resolveLabelOrUnknown bc l s))
      ((s.set GaugeId.pollSuccess [bc.name, resolveLabelOrUnknown bc l s] 0).set
        GaugeId.pollTimestamp [bc.name, resolveLabelOrUnknown bc l s] 0) with ⟨s2, t2⟩
  rcases hclear : clearCachedMetrics bc s2 with ⟨s3, t3, cleared⟩
  simp

/-- C2: when the head-block call (`get_block("latest")`) exhausts its
retries (the oracle yields an error), the iteration fails, no contract
and no account metric is written anywhere in the iteration's trace, and
the failure path sets `poll_success = 0` for the chain. -/
theorem head_failure_iteration (O : RpcOracle) (bc : BlockchainConfig)
    (s : MetricsState) (exc : PyExc)
    (hconn : O.isConnected = true)
    (hhead : O.getBlock "latest" = .error exc) :
    (collectChainMetricsSync O bc s).1 = false ∧
    (∀ op ∈ (collectChainMetricsSync O bc s).2.2, op.isAccountOrContractWrite = false) ∧
    (∃ label, MetricOp.setGauge GaugeId.pollSuccess [bc.name, label] 0 ∈
      (collectChainMetricsSync O bc s).2.2) := by
  rcases hres : resolveChainIdLabel O bc s with ⟨label0, s1, t1⟩
  have ht1 : ∀ op ∈ t1, op.isAccountOrContractWrite = false := by
    have h := resolveChainIdLabel_no_writes O bc s
    rw [hres] at h
    exact h
  simp only [collectChainMetricsSync, hconn, Bool.not_true, Bool.false_eq_true,
    if_false, hres, recordChainHealthMetrics, hhead, CollectCtx.setG]
  refine ⟨trivial, ?_, ?_⟩
  · intro op hop
    simp only [List.mem_append] at hop
    rcases hop with ((((hop | hop) | hop) | hop) | hop)
    · exact ht1 op hop
    · simp only [List.mem_singleton] at hop; subst hop; rfl
    · simp only [List.mem_singleton] at hop; subst hop; rfl
    · simp only [List.mem_singleton] at hop; subst hop; rfl
    · exact recordPollFailure_no_writes bc (some label0) _ op hop
  · have hmem := recordPollFailure_sets_poll_success bc (some label0)
      (((s1.set GaugeId.headBlockNumber [bc.name, label0] 0).set
          GaugeId.headBlockTimestamp [bc.name, label0] 0).set
        GaugeId.timeSinceLastBlock [bc.name, label0] 0)
    exact ⟨_, List.mem_append.mpr (Or.inr hmem)⟩

/-- C2 witness: the scenario endpoint with a timed-out head-block call. -/
theorem head_failure_iteration_witness :
    (collectChainMetricsSync headFailureOracle scenarioBlockchain emptyMetricsState).1 = false ∧
    (∀ op ∈ (collectChainMetricsSync headFailureOracle scenarioBlockchain emptyMetricsState).2.2,
      op.isAccountOrContractWrite = false) ∧
    (∃ label, MetricOp.setGauge GaugeId.pollSuccess ["M", label] 0 ∈
      (collectChainMetricsSync headFailureOracle scenarioBlockchain emptyMetricsState).2.2) :=
  head_failure_iteration headFailureOracle scenarioBlockchain emptyMetricsState
    timeoutExc rfl rfl

end BlockchainExporter

namespace BlockchainExporter

theorem expectedErrEvents_zero {α : Type} (O : AttemptOracle α) (opType : String)
    (attempt : Nat) : expectedErrEvents O opType attempt 0 = [] := rfl

theorem expectedErrEvents_succ {α : Type} (O : AttemptOracle α) (opType : String)
    (attempt n : Nat) :
    expectedErrEvents O opType attempt (n + 1) =
      RpcEvent.errorInc opType (attemptErrType O attempt) ::
        expectedErrEvents O opType (attempt + 1) n := by
  simp [expectedErrEvents, List.range'_succ]

theorem elapsedBetween_self {α : Type} (O : AttemptOracle α) (k : Nat) :
    elapsedBetween O k k = O.dur k := by
  simp [elapsedBetween, show k + 1 - k = 1 from by omega, Nat.sub_self]

theorem elapsedBetween_step {α : Type} (O : AttemptOracle α) (attempt k : Nat)
    (h : attempt < k) :
    elapsedBetween O attempt k =
      O.dur attempt + retryBackoffSeconds attempt + elapsedBetween O (attempt + 1) k := by
  obtain ⟨d, rfl⟩ : ∃ d, k = attempt + d + 1 := ⟨k - attempt - 1, by omega⟩
  simp only [elapsedBetween,
    show attempt + d + 1 + 1 - attempt = d + 2 from by omega,
    show attempt + d + 1 - attempt = d + 1 from by omega,
    show attempt + d + 1 + 1 - (attempt + 1) = d + 1 from by omega,
    show attempt + d + 1 - (attempt + 1) = d from by omega,
    List.range'_succ, List.map_cons, List.sum_cons]
  ring

theorem firstOkFrom_some_le {α : Type} (O : AttemptOracle α) :
    ∀ r a k, firstOkFrom O a r = some k → a ≤ k := by
  intro r
  induction r with
  | zero => intro a k h; simp [firstOkFrom] at h
  | succ r ih =>
    intro a k h
    unfold firstOkFrom at h
    by_cases hok : (O.run a).isOk
    · rw [if_pos hok] at h
      exact le_of_eq (Option.some.inj h)
    · rw [if_neg hok] at h
      have := ih (a + 1) k h
      omega

/-- One loop step on a successful attempt. -/
theorem ewrGo_step_ok {α : Type} (O : AttemptOracle α) (bc : BlockchainConfig)
    (opType description : String) (attemptLimit r attempt : Nat) (clock : ℚ)
    (last : Option PyExc) (v : α) (hv : O.run attempt = .ok v) :
    ewrGo O bc opType description attemptLimit (r + 1) attempt clock last =
      (.ok v, [.durationObs opType (clock + O.dur attempt)], clock + O.dur attempt) := by
  conv_lhs => rw [ewrGo]
  rw [hv]

/-- One loop step on a failed attempt. -/
theorem ewrGo_step_error {α : Type} (O : AttemptOracle α) (bc : BlockchainConfig)
    (opType description : String) (attemptLimit r attempt : Nat) (clock : ℚ)
    (last : Option PyExc) (e : PyExc) (he : O.run attempt = .error e) :
    ewrGo O bc opType description attemptLimit (r + 1) attempt clock last =
      ((ewrGo O bc opType description attemptLimit r (attempt + 1)
          (clock + O.dur attempt + (if r > 0 then retryBackoffSeconds attempt else 0))
          (some (if e.isRpcError then e
            else wrapRpcException e bc opType description attempt attemptLimit))).1,
       .errorInc opType (categorizeError e) ::
         (ewrGo O bc opType description attemptLimit r (attempt + 1)
            (clock + O.dur attempt + (if r > 0 then retryBackoffSeconds attempt else 0))
            (some (if e.isRpcError then e
              else wrapRpcException e bc opType description attempt attemptLimit))).2.1,
       (ewrGo O bc opType description attemptLimit r (attempt + 1)
          (clock + O.dur attempt + (if r > 0 then retryBackoffSeconds attempt else 0))
          (some (if e.isRpcError then e
            else wrapRpcException e bc opType description attempt attemptLimit))).2.2) := by
  conv_lhs => rw [ewrGo]
  rw [he]

theorem ewrGo_char {α : Type} (O : AttemptOracle α) (bc : BlockchainConfig)
    (opType description : String) (attemptLimit : Nat) :
    ∀ remaining attempt (clock : ℚ) (last : Option PyExc),
      (∀ k, firstOkFrom O attempt remaining = some k →
        ∃ v, O.run k = .ok v ∧
          ewrGo O bc opType description attemptLimit remaining attempt clock last =
            (.ok v, expectedErrEvents O opType attempt (k - attempt) ++
              [.durationObs opType (clock + elapsedBetween O attempt k)],
             clock + elapsedBetween O attempt k)) ∧
      (firstOkFrom O attempt remaining = none → 1 ≤ remaining →
        (ewrGo O bc opType description attemptLimit remaining attempt clock last).1 =
          .error (lastWrappedError O bc opType description (attempt + remaining - 1) attemptLimit) ∧
        (ewrGo O bc opType description attemptLimit remaining attempt clock last).2.1 =
          expectedErrEvents O opType attempt remaining) := by
  intro remaining
  induction remaining with
  | zero =>
    intro attempt clock last
    constructor
    · intro k hk
      simp [firstOkFrom] at hk
    · intro _ hpos
      omega
  | succ remaining ih =>
    intro attempt clock last
    constructor
    · intro k hk
      unfold firstOkFrom at hk
      by_cases hok : (O.run attempt).isOk = true
      · rw [if_pos hok] at hk
        obtain rfl : attempt = k := Option.some.inj hk
        obtain ⟨v, hv⟩ : ∃ v, O.run attempt = .ok v := by
          cases hrun : O.run attempt with
          | ok v => exact ⟨v, rfl⟩
          | error e => rw [hrun] at hok; simp [Except.isOk, Except.toBool] at hok
        refine ⟨v, hv, ?_⟩
        rw [ewrGo_step_ok O bc opType description attemptLimit remaining attempt
          clock last v hv]
        simp [Nat.sub_self, expectedErrEvents_zero, elapsedBetween_self]
      · rw [if_neg hok] at hk
        obtain ⟨e, he⟩ : ∃ e, O.run attempt = .error e := by
          cases hrun : O.run attempt with
          | ok v => rw [hrun] at hok; simp [Except.isOk, Except.toBool] at hok
          | error e => exact ⟨e, rfl⟩
        cases remaining with
        | zero => simp [firstOkFrom] at hk
        | succ remaining' =>
          have hk1 : attempt + 1 ≤ k := firstOkFrom_some_le O _ _ _ hk
          obtain ⟨v, hv, heq⟩ := (ih (attempt + 1)
            (clock + O.dur attempt + retryBackoffSeconds attempt)
            (some (if e.isRpcError then e
              else wrapRpcException e bc opType description attempt attemptLimit))).1 k hk
          refine ⟨v, hv, ?_⟩
          rw [ewrGo_step_error O bc opType description attemptLimit
            (remaining' + 1) attempt clock last e he]
          rw [if_pos (show remaining' + 1 > 0 from by omega)]
          rw [heq]
          dsimp only
          have hsub : k - attempt = (k - (attempt + 1)) + 1 := by omega
          have herr : attemptErrType O attempt = categorizeError e := by
            simp [attemptErrType, he]
          have hclock : clock + O.dur attempt + retryBackoffSeconds attempt +
              elapsedBetween O (attempt + 1) k = clock + elapsedBetween O attempt k := by
            rw [elapsedBetween_step O attempt k (by omega)]
            ring
          rw [hsub, expectedErrEvents_succ, herr, hclock]
          simp [List.cons_append]
    · intro hnone hpos
      unfold firstOkFrom at hnone
      by_cases hok : (O.run attempt).isOk = true
      · rw [if_pos hok] at hnone
        cases hnone
      · rw [if_neg hok] at hnone
        obtain ⟨e, he⟩ : ∃ e, O.run attempt = .error e := by
          cases hrun : O.run attempt with
          | ok v => rw [hrun] at hok; simp [Except.isOk, Except.toBool] at hok
          | error e => exact ⟨e, rfl⟩
        cases remaining with
        | zero =>
          rw [ewrGo_step_error O bc opType description attemptLimit 0 attempt
            clock last e he]
          have hlast : lastWrappedError O bc opType description (attempt + 1 - 1)
              attemptLimit =
              (if e.isRpcError then e
                else wrapRpcException e bc opType description attempt attemptLimit) := by
            rw [show attempt + 1 - 1 = attempt from by omega]
            simp [lastWrappedError, he]
          have hexp : expectedErrEvents O opType attempt 1 =
              [RpcEvent.errorInc opType (categorizeError e)] := by
            have h01 : expectedErrEvents O opType attempt (0 + 1) =
                RpcEvent.errorInc opType (attemptErrType O attempt) ::
                  expectedErrEvents O opType (attempt + 1) 0 :=
              expectedErrEvents_succ O opType attempt 0
            simpa [attemptErrType, he, expectedErrEvents_zero] using h01
          rw [hlast, hexp]
          constructor
          · dsimp only [ewrGo]
          · dsimp only [ewrGo]
        | succ remaining' =>
          have hres := (ih (attempt + 1)
            (clock + O.dur attempt + retryBackoffSeconds attempt)
            (some (if e.isRpcError then e
              else wrapRpcException e bc opType description attempt attemptLimit))).2
            hnone (by omega)
          rw [ewrGo_step_error O bc opType description attemptLimit
            (remaining' + 1) attempt clock last e he]
          rw [if_pos (show remaining' + 1 > 0 from by omega)]
          dsimp only
          have hidx : attempt + 1 + (remaining' + 1) - 1 =
              attempt + (remaining' + 1 + 1) - 1 := by omega
          rw [hidx] at hres
          constructor
          · exact hres.1
          · rw [hres.2]
            have hsucc := expectedErrEvents_succ O opType attempt (remaining' + 1)
            rw [hsucc]
            congr 1
            simp [attemptErrType, he]

end BlockchainExporter

namespace BlockchainExporter

theorem expectedErrEvents_length {α : Type} (O : AttemptOracle α) (opType : String)
    (attempt count : Nat) : (expectedErrEvents O opType attempt count).length = count := by
  simp [expectedErrEvents]

theorem expectedErrEvents_countP_durObs {α : Type} (O : AttemptOracle α) (opType : String)
    (attempt count : Nat) :
    (expectedErrEvents O opType attempt count).countP (fun e => e.isDurationObs) = 0 := by
  rw [List.countP_eq_zero]
  intro a ha
  simp only [expectedErrEvents, List.mem_map] at ha
  obtain ⟨i, -, rfl⟩ := ha
  simp [RpcEvent.isDurationObs]

/-- C6: for a call run through `execute_with_retries` with attempt limit `n`:
if attempt `k` is the first success, the recorded events are exactly one
error increment per failed attempt `1, …, k − 1` (with the classified error
type) followed by a single duration observation measuring the wall time from
the first attempt to the success, backoff included; if every attempt fails,
the events are exactly `n` error increments, no duration observation, and
the call re-raises the classified (wrapped) error of the last attempt. -/
theorem execute_with_retries_metrics {α : Type} (O : AttemptOracle α)
    (bc : BlockchainConfig) (opType description : String) (n : Nat) (hn : 1 ≤ n) :
    (∀ k, firstOkWithin O n = some k →
       ∃ v, O.run k = .ok v ∧
         executeWithRetries O bc opType description (some n) =
           (.ok v,
            expectedErrEvents O opType 1 (k - 1) ++
              [.durationObs opType (elapsedBetween O 1 k)],
            elapsedBetween O 1 k) ∧
         (expectedErrEvents O opType 1 (k - 1) ++
             [RpcEvent.durationObs opType (elapsedBetween O 1 k)]).countP
               (fun e => e.isDurationObs) = 1 ∧
         (expectedErrEvents O opType 1 (k - 1)).length = k - 1) ∧
    (firstOkWithin O n = none →
       (executeWithRetries O bc opType description (some n)).1 =
         .error (lastWrappedError O bc opType description n n) ∧
       (executeWithRetries O bc opType description (some n)).2.1 =
         expectedErrEvents O opType 1 n ∧
       (expectedErrEvents O opType 1 n).countP (fun e => e.isDurationObs) = 0 ∧
       (expectedErrEvents O opType 1 n).length = n) := by
  constructor
  · intro k hk
    obtain ⟨v, hv, heq⟩ := (ewrGo_char O bc opType description n n 1 0 none).1 k hk
    refine ⟨v, hv, ?_, ?_, expectedErrEvents_length O opType 1 (k - 1)⟩
    · simpa [executeWithRetries] using heq
    · rw [List.countP_append, expectedErrEvents_countP_durObs]
      simp [RpcEvent.isDurationObs]
  · intro hnone
    have h := (ewrGo_char O bc opType description n n 1 0 none).2 hnone hn
    rw [show 1 + n - 1 = n from by omega] at h
    refine ⟨?_, ?_, expectedErrEvents_countP_durObs O opType 1 n,
      expectedErrEvents_length O opType 1 n⟩
    · simpa [executeWithRetries] using h.1
    · simpa [executeWithRetries] using h.2

/-- Concrete run of the retry-metrics theorem: a call failing once then
succeeding, and a call failing all three attempts. -/
theorem execute_with_retries_metrics_witness :
    (1 : Nat) ≤ 3 ∧
    executeWithRetries sampleAttempts scenarioBlockchain "eth_call" "d" (some 3) =
      (Except.ok 42,
       expectedErrEvents sampleAttempts "eth_call" 1 1 ++
         [RpcEvent.durationObs "eth_call" (elapsedBetween sampleAttempts 1 2)],
       elapsedBetween sampleAttempts 1 2) ∧
    (executeWithRetries failingAttempts scenarioBlockchain "eth_call" "d" (some 3)).1 =
      Except.error (lastWrappedError failingAttempts scenarioBlockchain "eth_call" "d" 3 3) ∧
    (executeWithRetries failingAttempts scenarioBlockchain "eth_call" "d" (some 3)).2.1 =
      expectedErrEvents failingAttempts "eth_call" 1 3 ∧
    (expectedErrEvents failingAttempts "eth_call" 1 3).length = 3 := by
  refine ⟨by decide, ?_, ?_, ?_, ?_⟩
  · obtain ⟨v, hv, heq, -⟩ :=
      (execute_with_retries_metrics sampleAttempts scenarioBlockchain "eth_call" "d" 3
        (by decide)).1 2 (by decide)
    have h42 : sampleAttempts.run 2 = Except.ok 42 := rfl
    obtain rfl : v = 42 := Except.ok.inj (hv.symm.trans h42)
    exact heq
  · exact ((execute_with_retries_metrics failingAttempts scenarioBlockchain "eth_call" "d" 3
      (by decide)).2 (by decide)).1
  · exact ((execute_with_retries_metrics failingAttempts scenarioBlockchain "eth_call" "d" 3
      (by decide)).2 (by decide)).2.1
  · exact ((execute_with_retries_metrics failingAttempts scenarioBlockchain "eth_call" "d" 3
      (by decide)).2 (by decide)).2.2.2

end BlockchainExporter
